import Mathlib

/-!
# crud-arise: service layer over the repository contracts

A shallow embedding of the domain entities (`internal/domain/entity`), the two
repository contracts (`internal/domain/repository`), the category and product
services (`internal/services`), the persistence models and the two
repositories (`internal/repository`), the request and response conversions of
the handlers (`internal/handler/http/category/dto`,
`internal/handler/http/product/dto`) and the status mapping
(`internal/handler/http/errors`).

Conventions of the embedding.

* A Go pointer `*T` is an `Option T` (`none` is `nil`); a Go slice `[]T` is an
  `Option (List T)` (`none` is the nil slice).
* A Go result pair `(T, error)` is a pair `T × Option Error`, so a callee that
  returns a value together with an error is representable, as it is in Go.
* Go `int` is `Int` (only comparisons and constants occur, no arithmetic).
* `float64` prices are exact rationals.
* A repository is a record of functions over an arbitrary store state `σ`;
  every call threads the store explicitly.
* The database library `gorm.io/gorm` is outside the repository: its handle is
  a statement builder following the library's method-chaining rule, and the
  database behind it is an arbitrary record of finisher operations.
-/

namespace CrudArise

/-! ## Entities -/

/-- A `time.Time` instant. -/
abbrev Time := Int

/-- A `context.Context` handed through every operation. -/
structure Context where
  token : Nat
deriving DecidableEq

/-- The struct `entity.Category`. -/
structure Category where
  ID : String
  Name : String
  CreatedAt : Time
  UpdatedAt : Time
deriving DecidableEq

/-- Modelled from the spec: the pagination window `Pagination{limit, offset}`
embedded in both filters; its declaration is not among the sources, its two
`int` fields are the ones the filters and the request conversion use. -/
structure Pagination where
  Limit : Int
  Offset : Int
deriving DecidableEq

/-- The struct `entity.CategoriesFilter` (embeds `Pagination`). -/
structure CategoriesFilter extends Pagination where
  Name : Option String
deriving DecidableEq

/-- The struct `entity.Product`. -/
structure Product where
  ID : String
  Name : String
  Description : String
  SKU : String
  Price : Option ℚ
  Stock : Option Int
  ImageURL : Option String
  CreatedAt : Time
  UpdatedAt : Time
  CategoryID : String
  Category : Option Category
deriving DecidableEq

/-- The struct `entity.ProductFilter` (embeds `Pagination`). -/
structure ProductFilter extends Pagination where
  Name : Option String
  CategoryID : Option String
  MinPrice : Option ℚ
  MaxPrice : Option ℚ
deriving DecidableEq

/-! ## Errors -/

/-- A Go `error` value: a plain error (`errors.New`), an application error
carrying a `(code, message)` pair, or an application error wrapping a cause. -/
inductive Error where
  | New (text : String)
  | App (Code : String) (Message : String)
  | Wrap (Code : String) (Message : String) (Err : Error)
deriving DecidableEq

/-- Modelled from the spec: the application error of package `internal/errors`
(not among the sources), surfaced as a `(code, message)` pair. -/
structure AppError where
  Code : String
  Message : String
deriving DecidableEq

/-- Modelled from the spec: the error kind `InvalidArgument` of package
`internal/errors`; its code is written as the handlers' API documentation
shows it. -/
def ErrInvalidArgument : AppError := ⟨"INVALID_ARGUMENT", ""⟩

/-- Modelled from the spec: the error kind `NotFound` of package
`internal/errors`; its code is written as the handlers' API documentation
shows it. -/
def ErrNotFound : AppError := ⟨"NOT_FOUND", ""⟩

/-- Modelled from the spec: the error kind `Internal` of package
`internal/errors`; its code is written as the handlers' API documentation
shows it. -/
def ErrInternal : AppError := ⟨"INTERNAL_ERROR", ""⟩

/-- Modelled from the spec: `AppError.WithMessage` of package `internal/errors`,
an error of the same kind carrying the given message. -/
def AppError.WithMessage (e : AppError) (msg : String) : Error :=
  Error.App e.Code msg

/-- Modelled from the spec: `AppError.Wrap` of package `internal/errors`, an
error of the same kind that keeps the underlying failure as its cause. -/
def AppError.Wrap (e : AppError) (err : Error) : Error :=
  Error.Wrap e.Code e.Message err

/-! ## Repository contracts -/

/-- The interface `repository.CategoryRepository`, over a store state `σ`. -/
structure CategoryRepository (σ : Type) where
  Create : Context → Option Category → σ → (String × Option Error) × σ
  FindByID : Context → String → σ → (Option Category × Option Error) × σ
  Update : Context → Option Category → σ → Option Error × σ
  FindAll : Context → CategoriesFilter → σ →
    (Option (List Category) × Option Error) × σ
  Delete : Context → String → σ → Option Error × σ

/-- The interface `repository.ProductRepository`, over a store state `σ`. -/
structure ProductRepository (σ : Type) where
  Create : Context → Option Product → σ → (String × Option Error) × σ
  FindByID : Context → String → σ → (Option Product × Option Error) × σ
  Update : Context → Option Product → σ → Option Error × σ
  FindAll : Context → ProductFilter → σ →
    (Option (List Product) × Option Error) × σ
  Delete : Context → String → σ → Option Error × σ

/-! ## Category service (`internal/services/category/category.go`) -/

/-- The struct `categoryService`. -/
structure categoryService (σ : Type) where
  categoryRepo : CategoryRepository σ

/-- The constructor `NewCategoryService`. -/
def NewCategoryService {σ : Type} (categoryRepo : CategoryRepository σ) :
    categoryService σ :=
  { categoryRepo := categoryRepo }

/-- The method `categoryService.Create`. -/
def categoryService.Create {σ : Type} (p : categoryService σ) (ctx : Context)
    (category : Category) (s : σ) : (String × Option Error) × σ :=
  match p.categoryRepo.Create ctx (some category) s with
  | ((_, some err), s1) => (("", some err), s1)
  | ((id, none), s1) => ((id, none), s1)

/-- The method `categoryService.Update`. -/
def categoryService.Update {σ : Type} (p : categoryService σ) (ctx : Context)
    (id : String) (category : Category) (s : σ) : Option Error × σ :=
  let category := { category with ID := id }
  p.categoryRepo.Update ctx (some category) s

/-- The method `categoryService.GetByID`. -/
def categoryService.GetByID {σ : Type} (p : categoryService σ) (ctx : Context)
    (id : String) (s : σ) : (Option Category × Option Error) × σ :=
  p.categoryRepo.FindByID ctx id s

/-- The method `categoryService.GetAll`. -/
def categoryService.GetAll {σ : Type} (p : categoryService σ) (ctx : Context)
    (filter : CategoriesFilter) (s : σ) :
    (Option (List Category) × Option Error) × σ :=
  let filter := if filter.Limit ≤ 0 then { filter with Limit := 10 } else filter
  let filter := if filter.Limit > 100 then { filter with Limit := 100 } else filter
  p.categoryRepo.FindAll ctx filter s

/-- The method `categoryService.Delete`. -/
def categoryService.Delete {σ : Type} (p : categoryService σ) (ctx : Context)
    (id : String) (s : σ) : Option Error × σ :=
  p.categoryRepo.Delete ctx id s

/-! ## Product service (`internal/services/product/product.go`) -/

/-- The struct `productService`. -/
structure productService (σ : Type) where
  productRepo : ProductRepository σ
  categoryRepo : CategoryRepository σ

/-- The constructor `NewProductService`. -/
def NewProductService {σ : Type} (productRepo : ProductRepository σ)
    (categoryRepo : CategoryRepository σ) : productService σ :=
  { productRepo := productRepo, categoryRepo := categoryRepo }

/-- The method `productService.validateCategory`. -/
def productService.validateCategory {σ : Type} (p : productService σ)
    (ctx : Context) (id : String) (s : σ) : Option Error × σ :=
  match p.categoryRepo.FindByID ctx id s with
  | ((_, some err), s1) => (some err, s1)
  | ((_, none), s1) => (none, s1)

/-- The method `productService.Create`. -/
def productService.Create {σ : Type} (p : productService σ) (ctx : Context)
    (product : Product) (s : σ) : (String × Option Error) × σ :=
  match p.validateCategory ctx product.CategoryID s with
  | (some err, s1) => (("", some err), s1)
  | (none, s1) =>
    match p.productRepo.Create ctx (some product) s1 with
    | ((_, some err), s2) => (("", some err), s2)
    | ((id, none), s2) => ((id, none), s2)

/-- The method `productService.Update`. -/
def productService.Update {σ : Type} (p : productService σ) (ctx : Context)
    (id : String) (product : Product) (s : σ) : Option Error × σ :=
  let checked :=
    if product.CategoryID ≠ "" then p.validateCategory ctx product.CategoryID s
    else (none, s)
  match checked with
  | (some err, s1) => (some err, s1)
  | (none, s1) =>
    let product := { product with ID := id }
    p.productRepo.Update ctx (some product) s1

/-- The method `productService.GetByID`. -/
def productService.GetByID {σ : Type} (p : productService σ) (ctx : Context)
    (id : String) (s : σ) : (Option Product × Option Error) × σ :=
  p.productRepo.FindByID ctx id s

/-- The method `productService.GetAll`. -/
def productService.GetAll {σ : Type} (p : productService σ) (ctx : Context)
    (filter : ProductFilter) (s : σ) :
    (Option (List Product) × Option Error) × σ :=
  let filter := if filter.Limit ≤ 0 then { filter with Limit := 10 } else filter
  let filter := if filter.Limit > 100 then { filter with Limit := 100 } else filter
  match filter.MinPrice, filter.MaxPrice with
  | some minPrice, some maxPrice =>
    if minPrice > maxPrice then
      ((none, some (ErrInvalidArgument.WithMessage
        "min price cannot be greater than max price")), s)
    else p.productRepo.FindAll ctx filter s
  | _, _ => p.productRepo.FindAll ctx filter s

/-- The method `productService.Delete`. -/
def productService.Delete {σ : Type} (p : productService σ) (ctx : Context)
    (id : String) (s : σ) : Option Error × σ :=
  p.productRepo.Delete ctx id s

/-! ## Observing repository invocations

The services are run against repositories that append every invocation, with
its arguments, to a log kept next to the store: the log of a run is the exact
sequence of repository calls the service made.
-/

/-- One invocation of a repository method, with its arguments. -/
inductive Call where
  | CategoryCreate (ctx : Context) (category : Option Category)
  | CategoryFindByID (ctx : Context) (id : String)
  | CategoryUpdate (ctx : Context) (category : Option Category)
  | CategoryFindAll (ctx : Context) (filter : CategoriesFilter)
  | CategoryDelete (ctx : Context) (id : String)
  | ProductCreate (ctx : Context) (product : Option Product)
  | ProductFindByID (ctx : Context) (id : String)
  | ProductUpdate (ctx : Context) (product : Option Product)
  | ProductFindAll (ctx : Context) (filter : ProductFilter)
  | ProductDelete (ctx : Context) (id : String)
deriving DecidableEq

/-- Run one repository method on the store and append the call to the log. -/
def logged {σ α : Type} (c : Call) (run : σ → α × σ) (s : σ × List Call) :
    α × (σ × List Call) :=
  ((run s.1).1, ((run s.1).2, s.2 ++ [c]))

/-- A category repository that logs every invocation and otherwise behaves as
the given one. -/
def CategoryRepository.recorded {σ : Type} (r : CategoryRepository σ) :
    CategoryRepository (σ × List Call) where
  Create ctx category := logged (Call.CategoryCreate ctx category) (r.Create ctx category)
  FindByID ctx id := logged (Call.CategoryFindByID ctx id) (r.FindByID ctx id)
  Update ctx category := logged (Call.CategoryUpdate ctx category) (r.Update ctx category)
  FindAll ctx filter := logged (Call.CategoryFindAll ctx filter) (r.FindAll ctx filter)
  Delete ctx id := logged (Call.CategoryDelete ctx id) (r.Delete ctx id)

/-- A product repository that logs every invocation and otherwise behaves as
the given one. -/
def ProductRepository.recorded {σ : Type} (r : ProductRepository σ) :
    ProductRepository (σ × List Call) where
  Create ctx product := logged (Call.ProductCreate ctx product) (r.Create ctx product)
  FindByID ctx id := logged (Call.ProductFindByID ctx id) (r.FindByID ctx id)
  Update ctx product := logged (Call.ProductUpdate ctx product) (r.Update ctx product)
  FindAll ctx filter := logged (Call.ProductFindAll ctx filter) (r.FindAll ctx filter)
  Delete ctx id := logged (Call.ProductDelete ctx id) (r.Delete ctx id)

/-- The category service wired to a logging repository. -/
def recordedCategoryService {σ : Type} (cr : CategoryRepository σ) :
    categoryService (σ × List Call) :=
  NewCategoryService cr.recorded

/-- The product service wired to logging repositories. -/
def recordedProductService {σ : Type} (pr : ProductRepository σ)
    (cr : CategoryRepository σ) : productService (σ × List Call) :=
  NewProductService pr.recorded cr.recorded

/-! ## In-memory repositories

Small repositories over lists, used to run the services on concrete inputs. -/

/-- An in-memory store: the rows of the two tables. -/
structure MemStore where
  categories : List Category
  products : List Product
deriving DecidableEq

/-- An in-memory category repository. -/
def memCategoryRepository : CategoryRepository MemStore where
  Create _ category s :=
    match category with
    | none => (("", some (ErrInvalidArgument.WithMessage "category cannot be nil")), s)
    | some c => ((c.ID, none), { s with categories := s.categories ++ [c] })
  FindByID _ id s :=
    match s.categories.find? (fun c => c.ID == id) with
    | some c => ((some c, none), s)
    | none => ((none, some (ErrNotFound.WithMessage "category not found")), s)
  Update _ category s :=
    match category with
    | none => (some (ErrInvalidArgument.WithMessage "category cannot be nil"), s)
    | some c =>
      let rows := List.map
        (fun x => if x.ID == c.ID then { x with Name := c.Name } else x) s.categories
      (none, { s with categories := rows })
  FindAll _ filter s :=
    ((some ((s.categories.drop filter.Offset.toNat).take filter.Limit.toNat), none), s)
  Delete _ id s :=
    (none, { s with categories := s.categories.filter (fun c => c.ID != id) })

/-- An in-memory product repository. -/
def memProductRepository : ProductRepository MemStore where
  Create _ product s :=
    match product with
    | none => (("", some (ErrInvalidArgument.WithMessage "product cannot be nil")), s)
    | some p => ((p.ID, none), { s with products := s.products ++ [p] })
  FindByID _ id s :=
    match s.products.find? (fun p => p.ID == id) with
    | some p => ((some p, none), s)
    | none => ((none, some (ErrNotFound.WithMessage "product not found")), s)
  Update _ product s :=
    match product with
    | none => (some (ErrInvalidArgument.WithMessage "product cannot be nil"), s)
    | some p =>
      let rows := List.map (fun x => if x.ID == p.ID then p else x) s.products
      (none, { s with products := rows })
  FindAll _ filter s :=
    ((some ((s.products.drop filter.Offset.toNat).take filter.Limit.toNat), none), s)
  Delete _ id s :=
    (none, { s with products := s.products.filter (fun p => p.ID != id) })

/-- A product repository whose every operation fails with the given error, as
the failing mock of the service tests does: the empty id, no entity and no
list come with the error. -/
def failingProductRepository (e : Error) : ProductRepository MemStore where
  Create _ _ s := (("", some e), s)
  FindByID _ _ s := ((none, some e), s)
  Update _ _ s := (some e, s)
  FindAll _ _ s := ((none, some e), s)
  Delete _ _ s := (some e, s)

/-- The background context. -/
def background : Context := ⟨0⟩

/-- A store with one category and no product. -/
def store1 : MemStore :=
  { categories := [{ ID := "c1", Name := "Electronics", CreatedAt := 0, UpdatedAt := 0 }],
    products := [] }

/-- A product referring to category `c1`. -/
def phone : Product :=
  { ID := "p1", Name := "Phone", Description := "", SKU := "P-1",
    Price := some 200, Stock := some 5, ImageURL := none,
    CreatedAt := 0, UpdatedAt := 0, CategoryID := "c1", Category := none }

/-- A product referring to a category that is not in the store. -/
def orphan : Product := { phone with ID := "p2", CategoryID := "missing" }

/-- An update payload without a category reference, carrying an id of its own. -/
def renamed : Product :=
  { ID := "other", Name := "Updated Product", Description := "Updated Description",
    SKU := "", Price := none, Stock := none, ImageURL := none,
    CreatedAt := 0, UpdatedAt := 0, CategoryID := "", Category := none }

/-- A category filter with the given limit and no name predicate. -/
def categoryFilterWithLimit (limit : Int) : CategoriesFilter :=
  { Limit := limit, Offset := 0, Name := none }

/-- A product filter with the given limit and price bounds. -/
def productFilterWith (limit : Int) (minPrice maxPrice : Option ℚ) : ProductFilter :=
  { Limit := limit, Offset := 0, Name := none, CategoryID := none,
    MinPrice := minPrice, MaxPrice := maxPrice }

/-! ## Pointer helpers (`pkg/utils/pointer.go`) -/

/-- The zero value of a Go type. -/
class ZeroValue (T : Type) where
  zero : T

instance : ZeroValue String := ⟨""⟩

instance : ZeroValue Int := ⟨0⟩

instance : ZeroValue ℚ := ⟨0⟩

/-- The function `utils.GetValue`. -/
def GetValue {T : Type} [ZeroValue T] (ptr : Option T) : T :=
  match ptr with
  | none => ZeroValue.zero
  | some v => v

/-- The function `utils.SetPtr`. -/
def SetPtr {T : Type} [ZeroValue T] [DecidableEq T] (v : T) : Option T :=
  if v = ZeroValue.zero then none else some v

/-! ## Persistence models (`internal/repository/models`) -/

/-- The struct `models.CategoryModel`, over the type of its `Products` rows
(the two model structs refer to each other). -/
structure CategoryModelOf (P : Type) where
  ID : String
  Name : String
  Products : Option (List P)
  CreatedAt : Time
  UpdatedAt : Time
  DeletedAt : Option Time

/-- The struct `models.ProductModel`. -/
structure ProductModel where
  ID : String
  Name : String
  Description : String
  SKU : String
  Price : ℚ
  Stock : Int
  ImageURL : String
  CreatedAt : Time
  UpdatedAt : Time
  DeletedAt : Option Time
  CategoryID : String
  Category : Option (CategoryModelOf ProductModel)

/-- The struct `models.CategoryModel`. -/
abbrev CategoryModel := CategoryModelOf ProductModel

/-- The method `CategoryModel.TableName`. -/
def CategoryModel.TableName (_ : CategoryModel) : String := "categories"

/-- The method `ProductModel.TableName`. -/
def ProductModel.TableName (_ : ProductModel) : String := "products"

/-- The zero value `models.CategoryModel{}`. -/
def CategoryModel.zero : CategoryModel :=
  { ID := "", Name := "", Products := none, CreatedAt := 0, UpdatedAt := 0, DeletedAt := none }

/-- The zero value `models.ProductModel{}`. -/
def ProductModel.zero : ProductModel :=
  { ID := "", Name := "", Description := "", SKU := "", Price := 0, Stock := 0,
    ImageURL := "", CreatedAt := 0, UpdatedAt := 0, DeletedAt := none,
    CategoryID := "", Category := none }

/-- The function `models.ToCategoryEntity`. -/
def ToCategoryEntity (model : Option CategoryModel) : Option Category :=
  match model with
  | none => none
  | some model =>
    some { ID := model.ID, Name := model.Name,
           CreatedAt := model.CreatedAt, UpdatedAt := model.UpdatedAt }

/-- The function `models.ToCategoriesEntity`. -/
def ToCategoriesEntity (models : Option (List CategoryModel)) : Option (List Category) :=
  some ((models.getD []).filterMap (fun model => ToCategoryEntity (some model)))

/-- The function `models.ToCategoryModel`. -/
def ToCategoryModel (entity : Option Category) : Option CategoryModel :=
  match entity with
  | none => none
  | some entity => some { CategoryModel.zero with ID := entity.ID, Name := entity.Name }

/-- The function `models.ToProductEntity`. -/
def ToProductEntity (model : Option ProductModel) : Option Product :=
  match model with
  | none => none
  | some model =>
    some { ID := model.ID, Name := model.Name, Description := model.Description,
           SKU := model.SKU, Price := SetPtr model.Price, Stock := SetPtr model.Stock,
           ImageURL := SetPtr model.ImageURL, CreatedAt := model.CreatedAt,
           UpdatedAt := model.UpdatedAt, CategoryID := model.CategoryID,
           Category := ToCategoryEntity model.Category }

/-- The function `models.ToProductsEntity`. -/
def ToProductsEntity (models : Option (List ProductModel)) : Option (List Product) :=
  some ((models.getD []).filterMap (fun model => ToProductEntity (some model)))

/-- The function `models.ToProductModel`. -/
def ToProductModel (entity : Option Product) : Option ProductModel :=
  match entity with
  | none => none
  | some entity =>
    some { ProductModel.zero with
      ID := entity.ID, Name := entity.Name, Description := entity.Description,
      SKU := entity.SKU, Price := GetValue entity.Price, Stock := GetValue entity.Stock,
      ImageURL := GetValue entity.ImageURL, CategoryID := entity.CategoryID }

/-! ## Update column map (`internal/repository/operation/update.go`) -/

/-- A Go `interface{}` value as it is stored in a column map or bound to a
query: a string, or a pointer to a string, a float or an int. -/
inductive Value where
  | Str (v : String)
  | StrPtr (v : Option String)
  | FloatPtr (v : Option ℚ)
  | IntPtr (v : Option Int)
deriving DecidableEq

/-- A Go `map[string]interface{}`: its entries, one per key. -/
structure ColumnMap where
  entries : List (String × Value)
deriving DecidableEq

/-- The empty map `make(map[string]interface{})`. -/
def ColumnMap.make : ColumnMap := ⟨[]⟩

/-- The assignment `m[k] = v`. -/
def ColumnMap.set (m : ColumnMap) (k : String) (v : Value) : ColumnMap :=
  ⟨m.entries.filter (fun e => e.1 != k) ++ [(k, v)]⟩

/-- The lookup `m[k]`. -/
def ColumnMap.get? (m : ColumnMap) (k : String) : Option Value :=
  (m.entries.find? (fun e => e.1 == k)).map (fun e => e.2)

/-- The length `len(m)` of a possibly nil map. -/
def ColumnMap.len (m : Option ColumnMap) : Nat :=
  match m with
  | none => 0
  | some m => m.entries.length

/-- The function `operation.ToUpdateProductModel`. -/
def ToUpdateProductModel (product : Option Product) : Option ColumnMap :=
  match product with
  | none => none
  | some product =>
    let result := ColumnMap.make
    let result := if product.Name ≠ "" then result.set "name" (Value.Str product.Name)
      else result
    let result :=
      if product.Description ≠ "" then result.set "description" (Value.Str product.Description)
      else result
    let result := if product.SKU ≠ "" then result.set "sku" (Value.Str product.SKU)
      else result
    let result := if product.Price ≠ none then result.set "price" (Value.FloatPtr product.Price)
      else result
    let result := if product.Stock ≠ none then result.set "stock" (Value.IntPtr product.Stock)
      else result
    let result :=
      if product.ImageURL ≠ none then result.set "image_url" (Value.StrPtr product.ImageURL)
      else result
    let result :=
      if product.CategoryID ≠ "" then result.set "category_id" (Value.Str product.CategoryID)
      else result
    some result

/-! ## Product update request (`internal/handler/http/product/dto/request.go`) -/

/-- The struct `dto.ProductUpdateRequest`. -/
structure ProductUpdateRequest where
  Name : Option String
  Description : Option String
  SKU : Option String
  Price : Option ℚ
  Stock : Option Int
  ImageURL : Option String
  CategoryID : Option String
deriving DecidableEq

/-- The method `ProductUpdateRequest.ToDomain`. -/
def ProductUpdateRequest.ToDomain (r : ProductUpdateRequest) : Product :=
  { ID := "", Name := GetValue r.Name, Description := GetValue r.Description,
    SKU := GetValue r.SKU, Price := r.Price, Stock := r.Stock, ImageURL := r.ImageURL,
    CreatedAt := 0, UpdatedAt := 0, CategoryID := GetValue r.CategoryID, Category := none }

/-! ## The query builder of `gorm.io/gorm`

The repositories talk to the store through `*gorm.DB`, a library outside the
repository. A handle carries the statement built so far. Following the
library's method-chaining rule, a chain method called on a handle that is not
yet initialised (`clone > 0`: the result of `gorm.Open` or of `WithContext`)
returns a new initialised handle and leaves the receiver as it was, while a
chain method called on an initialised handle (`clone = 0`) adds to that same
handle, so the receiver changes too. A finisher method hands the statement to
the database behind the handle. -/

namespace gorm

/-- A condition `clause.Expr`: SQL text with its bound variables. -/
structure Expr where
  SQL : String
  Vars : List Value
deriving DecidableEq

/-- The part of `gorm.Statement` the repositories build: the table of the
model, the conditions (combined by AND), the window and the preloads. -/
structure Statement where
  Context : Option CrudArise.Context
  Table : Option String
  Where : List Expr
  Limit : Option Int
  Offset : Option Int
  Preloads : List String
deriving DecidableEq

/-- The statement of a new handle. -/
def Statement.empty : Statement :=
  { Context := none, Table := none, Where := [], Limit := none, Offset := none,
    Preloads := [] }

/-- The database behind a handle: what each finisher method does to the store
`σ` with the statement it executes, and what it reports back. -/
structure Backend (σ : Type) where
  CreateCategory : Statement → CategoryModel → σ → (CategoryModel × Option Error) × σ
  CreateProduct : Statement → ProductModel → σ → (ProductModel × Option Error) × σ
  FirstCategory : Statement → CategoryModel → σ → (CategoryModel × Option Error) × σ
  FirstProduct : Statement → ProductModel → σ → (ProductModel × Option Error) × σ
  FindCategories : Statement → σ → (Option (List CategoryModel) × Option Error) × σ
  FindProducts : Statement → σ → (Option (List ProductModel) × Option Error) × σ
  Updates : Statement → Option ColumnMap → σ → Option Error × σ
  Delete : Statement → σ → Option Error × σ

/-- The handle `*gorm.DB`. -/
structure DB (σ : Type) where
  clone : Nat
  Statement : gorm.Statement
  ConnPool : Backend σ

/-- The sentinel `gorm.ErrRecordNotFound`. -/
def ErrRecordNotFound : Error := Error.New "record not found"

/-- The handle returned by `gorm.Open`. -/
def Open {σ : Type} (backend : Backend σ) : DB σ :=
  { clone := 1, Statement := Statement.empty, ConnPool := backend }

/-- The method `DB.getInstance`: the handle a chain or finisher method works on. -/
def DB.getInstance {σ : Type} (db : DB σ) : DB σ :=
  if db.clone > 0 then
    if db.clone = 1 then
      { clone := 0, ConnPool := db.ConnPool,
        Statement := { Statement.empty with Context := db.Statement.Context } }
    else
      { clone := 0, ConnPool := db.ConnPool, Statement := db.Statement }
  else db

/-- What a variable holding the receiver `db` refers to after a chain method
returned `tx` and the result was not assigned: an initialised handle was
modified in place, any other handle is unchanged. -/
def DB.afterCall {σ : Type} (db tx : DB σ) : DB σ :=
  if db.clone > 0 then db else tx

/-- The method `DB.WithContext`. -/
def DB.WithContext {σ : Type} (db : DB σ) (ctx : CrudArise.Context) : DB σ :=
  { clone := 2, ConnPool := db.ConnPool,
    Statement := { db.Statement with Context := some ctx } }

/-- The chain method `DB.Model`, given the table of the model value. -/
def DB.Model {σ : Type} (db : DB σ) (table : String) : DB σ :=
  let tx := db.getInstance
  { tx with Statement := { tx.Statement with Table := some table } }

/-- The chain method `DB.Where`. -/
def DB.Where {σ : Type} (db : DB σ) (query : String) (args : List Value) : DB σ :=
  let tx := db.getInstance
  { tx with Statement := { tx.Statement with Where := tx.Statement.Where ++ [⟨query, args⟩] } }

/-- The chain method `DB.Limit`. -/
def DB.Limit {σ : Type} (db : DB σ) (limit : Int) : DB σ :=
  let tx := db.getInstance
  { tx with Statement := { tx.Statement with Limit := some limit } }

/-- The chain method `DB.Offset`. -/
def DB.Offset {σ : Type} (db : DB σ) (offset : Int) : DB σ :=
  let tx := db.getInstance
  { tx with Statement := { tx.Statement with Offset := some offset } }

/-- The chain method `DB.Preload`. -/
def DB.Preload {σ : Type} (db : DB σ) (query : String) : DB σ :=
  let tx := db.getInstance
  { tx with Statement := { tx.Statement with Preloads := tx.Statement.Preloads ++ [query] } }

/-- The statement a finisher method executes: the one built so far, with the
inline conditions added and, unless `Model` named one, the table of the
destination value. -/
def DB.finish {σ : Type} (db : DB σ) (table : Option String) (conds : List Expr) :
    gorm.Statement :=
  let tx := db.getInstance
  { tx.Statement with
    Table := (match tx.Statement.Table with
      | some t => some t
      | none => table),
    Where := tx.Statement.Where ++ conds }

/-- The finisher `DB.Create` on a category model; yields the model as the
library left it and `.Error`. -/
def DB.CreateCategory {σ : Type} (db : DB σ) (value : CategoryModel) (s : σ) :
    (CategoryModel × Option Error) × σ :=
  db.ConnPool.CreateCategory (db.finish (some value.TableName) []) value s

/-- The finisher `DB.Create` on a product model. -/
def DB.CreateProduct {σ : Type} (db : DB σ) (value : ProductModel) (s : σ) :
    (ProductModel × Option Error) × σ :=
  db.ConnPool.CreateProduct (db.finish (some value.TableName) []) value s

/-- The finisher `DB.First` into a category model, with an inline condition. -/
def DB.FirstCategory {σ : Type} (db : DB σ) (dest : CategoryModel) (query : String)
    (args : List Value) (s : σ) : (CategoryModel × Option Error) × σ :=
  db.ConnPool.FirstCategory (db.finish (some dest.TableName) [⟨query, args⟩]) dest s

/-- The finisher `DB.First` into a product model, with an inline condition. -/
def DB.FirstProduct {σ : Type} (db : DB σ) (dest : ProductModel) (query : String)
    (args : List Value) (s : σ) : (ProductModel × Option Error) × σ :=
  db.ConnPool.FirstProduct (db.finish (some dest.TableName) [⟨query, args⟩]) dest s

/-- The finisher `DB.Find` into a slice of category models. -/
def DB.FindCategories {σ : Type} (db : DB σ) (s : σ) :
    (Option (List CategoryModel) × Option Error) × σ :=
  db.ConnPool.FindCategories (db.finish (some CategoryModel.zero.TableName) []) s

/-- The finisher `DB.Find` into a slice of product models. -/
def DB.FindProducts {σ : Type} (db : DB σ) (s : σ) :
    (Option (List ProductModel) × Option Error) × σ :=
  db.ConnPool.FindProducts (db.finish (some ProductModel.zero.TableName) []) s

/-- The finisher `DB.Updates` with a column map. -/
def DB.Updates {σ : Type} (db : DB σ) (values : Option ColumnMap) (s : σ) :
    Option Error × σ :=
  db.ConnPool.Updates (db.finish none []) values s

/-- The finisher `DB.Delete`, given the table of the model value and an inline
condition. -/
def DB.Delete {σ : Type} (db : DB σ) (table : String) (query : String)
    (args : List Value) (s : σ) : Option Error × σ :=
  db.ConnPool.Delete (db.finish (some table) [⟨query, args⟩]) s

end gorm

/-- The function `errors.Is` of the Go standard library: the error or one of
the causes it wraps is the target. -/
def errors.Is (err target : Error) : Bool :=
  if err = target then true
  else
    match err with
    | Error.Wrap _ _ cause => errors.Is cause target
    | _ => false

/-- Modelled from the spec: the code of an application error (the `(code,
message)` pair of package `internal/errors`); a plain error has none. -/
def Error.Code? : Error → Option String
  | Error.New _ => none
  | Error.App code _ => some code
  | Error.Wrap code _ _ => some code

/-! ## Query conditions (`internal/repository/operation/filter.go`) -/

/-- The function `operation.BuildQuery`. Only the name condition assigns the
result of `Where` to `query`; the other three calls keep the receiver. -/
def BuildQuery {σ : Type} (db : gorm.DB σ) (filter : ProductFilter) : gorm.DB σ :=
  let query := db
  let query :=
    match filter.Name with
    | some name => query.Where "name ILIKE ?" [Value.Str ("%" ++ name ++ "%")]
    | none => query
  let query :=
    match filter.CategoryID with
    | some _ => query.afterCall (query.Where "category_id = ?" [Value.StrPtr filter.CategoryID])
    | none => query
  let query :=
    match filter.MinPrice with
    | some _ => query.afterCall (query.Where "price >= ?" [Value.FloatPtr filter.MinPrice])
    | none => query
  let query :=
    match filter.MaxPrice with
    | some _ => query.afterCall (query.Where "price <= ?" [Value.FloatPtr filter.MaxPrice])
    | none => query
  query

/-! ## Category repository (`internal/repository/category.go`) -/

/-- The struct `categoryRepository`. -/
structure categoryRepository (σ : Type) where
  db : gorm.DB σ

/-- The method `categoryRepository.Create`. -/
def categoryRepository.Create {σ : Type} (c : categoryRepository σ) (ctx : Context)
    (category : Option Category) (s : σ) : (String × Option Error) × σ :=
  match category with
  | none => (("", some (ErrInvalidArgument.WithMessage "category cannot be nil")), s)
  | some _ =>
    match ToCategoryModel category with
    | none => (("", some (ErrInvalidArgument.WithMessage "createModel cannot be nil")), s)
    | some createModel =>
      match (c.db.WithContext ctx).CreateCategory createModel s with
      | ((_, some err), s1) => (("", some (ErrInternal.Wrap err)), s1)
      | ((createModel, none), s1) => ((createModel.ID, none), s1)

/-- The method `categoryRepository.FindByID`. -/
def categoryRepository.FindByID {σ : Type} (c : categoryRepository σ) (ctx : Context)
    (id : String) (s : σ) : (Option Category × Option Error) × σ :=
  match (c.db.WithContext ctx).FirstCategory CategoryModel.zero "id = ?" [Value.Str id] s with
  | ((_, some err), s1) =>
    if errors.Is err gorm.ErrRecordNotFound then ((none, some (ErrNotFound.Wrap err)), s1)
    else ((none, some (ErrInternal.Wrap err)), s1)
  | ((category, none), s1) => ((ToCategoryEntity (some category), none), s1)

/-- The method `categoryRepository.FindAll`. -/
def categoryRepository.FindAll {σ : Type} (c : categoryRepository σ) (ctx : Context)
    (filter : CategoriesFilter) (s : σ) : (Option (List Category) × Option Error) × σ :=
  let query := (c.db.WithContext ctx).Model CategoryModel.zero.TableName
  let query :=
    match filter.Name with
    | some name =>
      let searchPattern := "%" ++ name ++ "%"
      query.afterCall (query.Where "name ILIKE ?" [Value.Str searchPattern])
    | none => query
  let query := (query.Limit filter.Limit).Offset filter.Offset
  match query.FindCategories s with
  | ((_, some err), s1) => ((none, some (ErrInternal.Wrap err)), s1)
  | ((categories, none), s1) => ((ToCategoriesEntity categories, none), s1)

/-- The method `categoryRepository.Update`. -/
def categoryRepository.Update {σ : Type} (c : categoryRepository σ) (ctx : Context)
    (category : Option Category) (s : σ) : Option Error × σ :=
  match category with
  | none => (some (ErrInvalidArgument.WithMessage "category cannot be nil"), s)
  | some category =>
    match (((c.db.WithContext ctx).Model CategoryModel.zero.TableName).Where "id = ?"
        [Value.Str category.ID]).Updates
        (some (ColumnMap.make.set "name" (Value.Str category.Name))) s with
    | (some err, s1) => (some (ErrInternal.Wrap err), s1)
    | (none, s1) => (none, s1)

/-- The method `categoryRepository.Delete`. -/
def categoryRepository.Delete {σ : Type} (c : categoryRepository σ) (ctx : Context)
    (id : String) (s : σ) : Option Error × σ :=
  match (c.db.WithContext ctx).Delete CategoryModel.zero.TableName "id = ?" [Value.Str id] s with
  | (some err, s1) => (some (ErrInternal.Wrap err), s1)
  | (none, s1) => (none, s1)

/-- The constructor `NewCategoryRepository`: the struct seen through the
interface `repository.CategoryRepository`. -/
def NewCategoryRepository {σ : Type} (db : gorm.DB σ) : CategoryRepository σ :=
  let c : categoryRepository σ := { db := db }
  { Create := c.Create, FindByID := c.FindByID, Update := c.Update,
    FindAll := c.FindAll, Delete := c.Delete }

/-! ## Product repository (`internal/repository/product.go`) -/

/-- The struct `productRepository`. -/
structure productRepository (σ : Type) where
  db : gorm.DB σ

/-- The method `productRepository.Create`. The pointer `value` is the model of a
non-nil product, hence non-nil, and is dereferenced. -/
def productRepository.Create {σ : Type} (p : productRepository σ) (ctx : Context)
    (product : Option Product) (s : σ) : (String × Option Error) × σ :=
  match product with
  | none => (("", some (ErrInvalidArgument.WithMessage "product cannot be nil")), s)
  | some _ =>
    let value := (ToProductModel product).getD ProductModel.zero
    match (p.db.WithContext ctx).CreateProduct value s with
    | ((_, some err), s1) => (("", some (ErrInternal.Wrap err)), s1)
    | ((value, none), s1) => ((value.ID, none), s1)

/-- The method `productRepository.FindByID`. -/
def productRepository.FindByID {σ : Type} (p : productRepository σ) (ctx : Context)
    (id : String) (s : σ) : (Option Product × Option Error) × σ :=
  match ((p.db.WithContext ctx).Preload "Category").FirstProduct ProductModel.zero "id = ?"
      [Value.Str id] s with
  | ((_, some err), s1) =>
    if errors.Is err gorm.ErrRecordNotFound then ((none, some (ErrNotFound.Wrap err)), s1)
    else ((none, some (ErrInternal.Wrap err)), s1)
  | ((product, none), s1) => ((ToProductEntity (some product), none), s1)

/-- The method `productRepository.FindAll`. -/
def productRepository.FindAll {σ : Type} (p : productRepository σ) (ctx : Context)
    (filter : ProductFilter) (s : σ) : (Option (List Product) × Option Error) × σ :=
  let query := (p.db.WithContext ctx).Model ProductModel.zero.TableName
  let query := BuildQuery query filter
  let query := (query.Limit filter.Limit).Offset filter.Offset
  match (query.Preload "Category").FindProducts s with
  | ((_, some err), s1) => ((none, some (ErrInternal.Wrap err)), s1)
  | ((products, none), s1) => ((ToProductsEntity products, none), s1)

/-- The method `productRepository.Update`. -/
def productRepository.Update {σ : Type} (p : productRepository σ) (ctx : Context)
    (product : Option Product) (s : σ) : Option Error × σ :=
  match product with
  | none => (some (ErrInvalidArgument.WithMessage "product cannot be nil"), s)
  | some entity =>
    let update := ToUpdateProductModel product
    if ColumnMap.len update = 0 then
      (some (ErrInvalidArgument.WithMessage "product update cannot be nil"), s)
    else
      match (((p.db.WithContext ctx).Model ProductModel.zero.TableName).Where "id = ?"
          [Value.Str entity.ID]).Updates update s with
      | (some err, s1) => (some (ErrInternal.Wrap err), s1)
      | (none, s1) => (none, s1)

/-- The method `productRepository.Delete`. The model value it passes to
`Delete` is `&models.CategoryModel{}`. -/
def productRepository.Delete {σ : Type} (p : productRepository σ) (ctx : Context)
    (id : String) (s : σ) : Option Error × σ :=
  match (p.db.WithContext ctx).Delete CategoryModel.zero.TableName "id = ?" [Value.Str id] s with
  | (some err, s1) => (some (ErrInternal.Wrap err), s1)
  | (none, s1) => (none, s1)

/-- The constructor `NewProductRepository`: the struct seen through the
interface `repository.ProductRepository`. -/
def NewProductRepository {σ : Type} (db : gorm.DB σ) : ProductRepository σ :=
  let p : productRepository σ := { db := db }
  { Create := p.Create, FindByID := p.FindByID, Update := p.Update,
    FindAll := p.FindAll, Delete := p.Delete }

/-! ## Observing the statements that reach the database -/

/-- One finisher call that reached the database, with the statement executed. -/
inductive Exec where
  | Create (stmt : gorm.Statement)
  | First (stmt : gorm.Statement)
  | Find (stmt : gorm.Statement)
  | Updates (stmt : gorm.Statement) (values : Option ColumnMap)
  | Delete (stmt : gorm.Statement)
deriving DecidableEq

/-- A database that logs every finisher call and otherwise behaves as the given
one. -/
def gorm.Backend.recorded {σ : Type} (b : gorm.Backend σ) : gorm.Backend (σ × List Exec) where
  CreateCategory stmt value s :=
    ((b.CreateCategory stmt value s.1).1,
      ((b.CreateCategory stmt value s.1).2, s.2 ++ [Exec.Create stmt]))
  CreateProduct stmt value s :=
    ((b.CreateProduct stmt value s.1).1,
      ((b.CreateProduct stmt value s.1).2, s.2 ++ [Exec.Create stmt]))
  FirstCategory stmt dest s :=
    ((b.FirstCategory stmt dest s.1).1,
      ((b.FirstCategory stmt dest s.1).2, s.2 ++ [Exec.First stmt]))
  FirstProduct stmt dest s :=
    ((b.FirstProduct stmt dest s.1).1,
      ((b.FirstProduct stmt dest s.1).2, s.2 ++ [Exec.First stmt]))
  FindCategories stmt s :=
    ((b.FindCategories stmt s.1).1, ((b.FindCategories stmt s.1).2, s.2 ++ [Exec.Find stmt]))
  FindProducts stmt s :=
    ((b.FindProducts stmt s.1).1, ((b.FindProducts stmt s.1).2, s.2 ++ [Exec.Find stmt]))
  Updates stmt values s :=
    ((b.Updates stmt values s.1).1,
      ((b.Updates stmt values s.1).2, s.2 ++ [Exec.Updates stmt values]))
  Delete stmt s :=
    ((b.Delete stmt s.1).1, ((b.Delete stmt s.1).2, s.2 ++ [Exec.Delete stmt]))

/-- A handle on a database that logs every finisher call. -/
def gorm.DB.recorded {σ : Type} (db : gorm.DB σ) : gorm.DB (σ × List Exec) :=
  { clone := db.clone, Statement := db.Statement, ConnPool := db.ConnPool.recorded }

/-- The conditions the specification lists for a product filter, one per
supplied predicate and none for an absent one: name substring
(case-insensitive), category equality, minimum price, maximum price. -/
def specProductConditions (filter : ProductFilter) : List gorm.Expr :=
  (match filter.Name with
    | some name => [⟨"name ILIKE ?", [Value.Str ("%" ++ name ++ "%")]⟩]
    | none => []) ++
  (match filter.CategoryID with
    | some categoryID => [⟨"category_id = ?", [Value.StrPtr (some categoryID)]⟩]
    | none => []) ++
  (match filter.MinPrice with
    | some minPrice => [⟨"price >= ?", [Value.FloatPtr (some minPrice)]⟩]
    | none => []) ++
  (match filter.MaxPrice with
    | some maxPrice => [⟨"price <= ?", [Value.FloatPtr (some maxPrice)]⟩]
    | none => [])

/-! ## An in-memory database

A small database over two lists of rows, used to run the repositories on
concrete inputs. -/

/-- The rows of the two tables. -/
structure MemDB where
  categories : List CategoryModel
  products : List ProductModel

/-- Case-insensitive match of a text against a pattern `%...%`. -/
def ilike (text pattern : String) : Bool :=
  let core := ((pattern.data.dropWhile (fun c => c == '%')).reverse.dropWhile
    (fun c => c == '%')).reverse
  (text.data.map Char.toLower).tails.any (fun t => (core.map Char.toLower).isPrefixOf t)

/-- Whether a category row satisfies a condition. -/
def memMatchesCategory (m : CategoryModel) (e : gorm.Expr) : Bool :=
  match e.SQL, e.Vars with
  | "id = ?", [Value.Str v] => m.ID == v
  | "name ILIKE ?", [Value.Str pattern] => ilike m.Name pattern
  | _, _ => false

/-- Whether a product row satisfies a condition. -/
def memMatchesProduct (m : ProductModel) (e : gorm.Expr) : Bool :=
  match e.SQL, e.Vars with
  | "id = ?", [Value.Str v] => m.ID == v
  | "name ILIKE ?", [Value.Str pattern] => ilike m.Name pattern
  | "category_id = ?", [Value.StrPtr (some v)] => m.CategoryID == v
  | "price >= ?", [Value.FloatPtr (some v)] => decide (v ≤ m.Price)
  | "price <= ?", [Value.FloatPtr (some v)] => decide (m.Price ≤ v)
  | _, _ => false

/-- The rows selected by a statement's window. -/
def memWindow {α : Type} (stmt : gorm.Statement) (rows : List α) : List α :=
  let rows := rows.drop ((stmt.Offset.getD 0).toNat)
  match stmt.Limit with
  | some limit => rows.take limit.toNat
  | none => rows

/-- A category row after an update with a column map. -/
def memUpdateCategory (values : ColumnMap) (m : CategoryModel) : CategoryModel :=
  match values.get? "name" with
  | some (Value.Str v) => { m with Name := v }
  | _ => m

/-- A product row after an update with a column map. -/
def memUpdateProduct (values : ColumnMap) (m : ProductModel) : ProductModel :=
  let m := match values.get? "name" with
    | some (Value.Str v) => { m with Name := v }
    | _ => m
  let m := match values.get? "description" with
    | some (Value.Str v) => { m with Description := v }
    | _ => m
  let m := match values.get? "sku" with
    | some (Value.Str v) => { m with SKU := v }
    | _ => m
  let m := match values.get? "price" with
    | some (Value.FloatPtr (some v)) => { m with Price := v }
    | _ => m
  let m := match values.get? "stock" with
    | some (Value.IntPtr (some v)) => { m with Stock := v }
    | _ => m
  let m := match values.get? "image_url" with
    | some (Value.StrPtr (some v)) => { m with ImageURL := v }
    | _ => m
  let m := match values.get? "category_id" with
    | some (Value.Str v) => { m with CategoryID := v }
    | _ => m
  m

/-- The in-memory database: rows are selected by the statement's table and
conditions; a lookup that selects no row reports `gorm.ErrRecordNotFound`; an
update or a delete that selects no row reports no error. -/
def memBackend : gorm.Backend MemDB where
  CreateCategory _ value s :=
    let value := if value.ID = "" then { value with ID := "generated" } else value
    ((value, none), { s with categories := s.categories ++ [value] })
  CreateProduct _ value s :=
    let value := if value.ID = "" then { value with ID := "generated" } else value
    ((value, none), { s with products := s.products ++ [value] })
  FirstCategory stmt dest s :=
    match s.categories.find? (fun m => stmt.Where.all (memMatchesCategory m)) with
    | some m => ((m, none), s)
    | none => ((dest, some gorm.ErrRecordNotFound), s)
  FirstProduct stmt dest s :=
    match s.products.find? (fun m => stmt.Where.all (memMatchesProduct m)) with
    | some m =>
      let m := if stmt.Preloads.contains "Category" then
          { m with Category := s.categories.find? (fun c => c.ID == m.CategoryID) }
        else m
      ((m, none), s)
    | none => ((dest, some gorm.ErrRecordNotFound), s)
  FindCategories stmt s :=
    ((some (memWindow stmt
      (s.categories.filter (fun m => stmt.Where.all (memMatchesCategory m)))), none), s)
  FindProducts stmt s :=
    ((some (memWindow stmt
      (s.products.filter (fun m => stmt.Where.all (memMatchesProduct m)))), none), s)
  Updates stmt values s :=
    match values with
    | none => (none, s)
    | some values =>
      if stmt.Table = some "categories" then
        let rows := List.map (fun m =>
          if stmt.Where.all (memMatchesCategory m) then memUpdateCategory values m else m)
          s.categories
        (none, { s with categories := rows })
      else if stmt.Table = some "products" then
        let rows := List.map (fun m =>
          if stmt.Where.all (memMatchesProduct m) then memUpdateProduct values m else m)
          s.products
        (none, { s with products := rows })
      else (some (Error.New "unsupported data"), s)
  Delete stmt s :=
    if stmt.Table = some "categories" then
      let rows := s.categories.filter (fun m => !stmt.Where.all (memMatchesCategory m))
      (none, { s with categories := rows })
    else if stmt.Table = some "products" then
      let rows := s.products.filter (fun m => !stmt.Where.all (memMatchesProduct m))
      (none, { s with products := rows })
    else (some (Error.New "unsupported data"), s)

/-- A database whose every operation fails with the given error and leaves the
store as it is. -/
def brokenBackend (e : Error) : gorm.Backend MemDB where
  CreateCategory _ value s := ((value, some e), s)
  CreateProduct _ value s := ((value, some e), s)
  FirstCategory _ dest s := ((dest, some e), s)
  FirstProduct _ dest s := ((dest, some e), s)
  FindCategories _ s := ((none, some e), s)
  FindProducts _ s := ((none, some e), s)
  Updates _ _ s := (some e, s)
  Delete _ s := (some e, s)

/-- The category row `c1`. -/
def electronicsRow : CategoryModel :=
  { CategoryModel.zero with ID := "c1", Name := "Electronics", CreatedAt := 1, UpdatedAt := 1 }

/-- The product row `p1`, in category `c1`. -/
def phoneRow : ProductModel :=
  { ProductModel.zero with
    ID := "p1", Name := "Phone", SKU := "P-1", Price := 200, Stock := 5,
    CreatedAt := 2, UpdatedAt := 2, CategoryID := "c1" }

/-- A database with one category and one product. -/
def memDB1 : MemDB := { categories := [electronicsRow], products := [phoneRow] }

/-! ## Status mapping (`internal/handler/http/errors/errors.go`) -/

/-- The constant `http.StatusBadRequest`. -/
def http.StatusBadRequest : Int := 400

/-- The constant `http.StatusNotFound`. -/
def http.StatusNotFound : Int := 404

/-- The constant `http.StatusInternalServerError`. -/
def http.StatusInternalServerError : Int := 500

/-- The function `mapErrorToHTTPStatus`. -/
def mapErrorToHTTPStatus (code : String) : Int :=
  if code = ErrNotFound.Code then http.StatusNotFound
  else if code = ErrInvalidArgument.Code then http.StatusBadRequest
  else http.StatusInternalServerError

/-! ## Creation hooks (`internal/repository/models`) -/

/-- The method `CategoryModel.BeforeCreate`; `generated` is the text that
`uuid.New().String()` yields at this call. Returns the model after the hook
and the hook's error. -/
def CategoryModel.BeforeCreate (c : CategoryModel) (generated : String) :
    CategoryModel × Option Error :=
  let c := if c.ID = "" then { c with ID := generated } else c
  (c, none)

/-- The method `ProductModel.BeforeCreate`; `generated` is the text that
`uuid.New().String()` yields at this call. Returns the model after the hook
and the hook's error. -/
def ProductModel.BeforeCreate (p : ProductModel) (generated : String) :
    ProductModel × Option Error :=
  let p := if p.ID = "" then { p with ID := generated } else p
  (p, none)

/-! ## Category requests and responses (`internal/handler/http/category/dto`) -/

namespace categorydto

/-- The struct `dto.Category` of the category handlers. -/
structure Category where
  ID : String
  Name : String
  CreatedAt : Time
  UpdatedAt : Time
deriving DecidableEq

/-- The function `dto.CategoryFromDomain`. -/
def CategoryFromDomain (category : Option CrudArise.Category) : Option Category :=
  match category with
  | none => none
  | some category =>
    some { ID := category.ID, Name := category.Name,
           CreatedAt := category.CreatedAt, UpdatedAt := category.UpdatedAt }

/-- The function `dto.CategoriesFromDomain`; the result is a slice of pointers. -/
def CategoriesFromDomain (categories : Option (List CrudArise.Category)) :
    Option (List (Option Category)) :=
  if (categories.getD []).length = 0 then none
  else some ((categories.getD []).map (fun category => CategoryFromDomain (some category)))

/-- The struct `dto.FilterCategoriesRequest`. -/
structure FilterCategoriesRequest where
  Name : String
  Limit : Int
  Offset : Int
deriving DecidableEq

/-- The method `FilterCategoriesRequest.ToDomain`. -/
def FilterCategoriesRequest.ToDomain (r : FilterCategoriesRequest) : CategoriesFilter :=
  { Name := SetPtr r.Name, Limit := r.Limit, Offset := r.Offset }

end categorydto

/-! ## Product requests and responses (`internal/handler/http/product/dto`) -/

namespace productdto

/-- The struct `dto.Category` of the product handlers. -/
structure Category where
  ID : String
  Name : String
deriving DecidableEq

/-- The struct `dto.Product`. -/
structure Product where
  ID : String
  Name : String
  Description : String
  SKU : String
  Price : ℚ
  Stock : Int
  ImageURL : String
  CreatedAt : Time
  UpdatedAt : Time
  Category : Option Category
deriving DecidableEq

/-- The function `dto.ProductFromDomain`. -/
def ProductFromDomain (product : Option CrudArise.Product) : Option Product :=
  match product with
  | none => none
  | some product =>
    let category : Option Category :=
      match product.Category with
      | some c => some { ID := c.ID, Name := c.Name }
      | none => none
    some { ID := product.ID, Name := product.Name, Description := product.Description,
           SKU := product.SKU, Price := GetValue product.Price,
           Stock := GetValue product.Stock, ImageURL := GetValue product.ImageURL,
           CreatedAt := product.CreatedAt, UpdatedAt := product.UpdatedAt,
           Category := category }

/-- The function `dto.ProductsFromDomain`: a nil conversion is skipped, any
other is appended. -/
def ProductsFromDomain (products : Option (List CrudArise.Product)) : Option (List Product) :=
  some ((products.getD []).filterMap (fun user => ProductFromDomain (some user)))

/-- The struct `dto.ProductCreateRequest`. -/
structure ProductCreateRequest where
  Name : String
  Description : String
  SKU : String
  Price : ℚ
  Stock : Int
  ImageURL : String
  CategoryID : String
deriving DecidableEq

/-- The method `ProductCreateRequest.ToDomain`. -/
def ProductCreateRequest.ToDomain (r : ProductCreateRequest) : CrudArise.Product :=
  { ID := "", Name := r.Name, Description := r.Description, SKU := r.SKU,
    Price := SetPtr r.Price, Stock := SetPtr r.Stock, ImageURL := SetPtr r.ImageURL,
    CreatedAt := 0, UpdatedAt := 0, CategoryID := r.CategoryID, Category := none }

/-- The `binding` tags of `dto.ProductCreateRequest`: `required` on name,
description, sku and categoryId, `min=0` on price and stock. A request that
does not satisfy them is rejected by the handler before the service is
called. -/
def ProductCreateRequest.binding (r : ProductCreateRequest) : Prop :=
  r.Name ≠ "" ∧ r.Description ≠ "" ∧ r.SKU ≠ "" ∧ 0 ≤ r.Price ∧ 0 ≤ r.Stock ∧
    r.CategoryID ≠ ""

instance (r : ProductCreateRequest) : Decidable r.binding := by
  unfold ProductCreateRequest.binding
  infer_instance

/-- The struct `dto.FilterProductRequest`. -/
structure FilterProductRequest where
  Name : Option String
  CategoryID : Option String
  MaxPrice : Option ℚ
  MinPrice : Option ℚ
  Limit : Int
  Offset : Int
deriving DecidableEq

/-- The method `FilterProductRequest.ToDomain`. -/
def FilterProductRequest.ToDomain (r : FilterProductRequest) : ProductFilter :=
  { Name := r.Name, CategoryID := r.CategoryID, MaxPrice := r.MaxPrice,
    MinPrice := r.MinPrice, Limit := r.Limit, Offset := r.Offset }

end productdto

/-- An update request that sets a negative price and a negative stock and
nothing else. -/
def negativeUpdate : ProductUpdateRequest :=
  { Name := none, Description := none, SKU := none, Price := some (-5), Stock := some (-3),
    ImageURL := none, CategoryID := none }

/-! ## Pagination limits of `GetAll` -/

/-- C1: when the caller's limit is zero or negative, category `GetAll` invokes
the repository's `FindAll` exactly once with a filter whose limit is 10, and
every `FindAll` invocation made by product `GetAll` carries a filter whose
limit is 10. -/
theorem getAll_nonpositive_limit_defaults_to_ten {σ : Type}
    (cr : CategoryRepository σ) (pr : ProductRepository σ) (ctx : Context)
    (cf : CategoriesFilter) (pf : ProductFilter) (s : σ)
    (hc : cf.Limit ≤ 0) (hp : pf.Limit ≤ 0) :
    (∃ g, ((recordedCategoryService cr).GetAll ctx cf (s, [])).2.2
        = [Call.CategoryFindAll ctx g] ∧ g.Limit = 10) ∧
    (∀ c g, Call.ProductFindAll c g ∈
        ((recordedProductService pr cr).GetAll ctx pf (s, [])).2.2 → g.Limit = 10) := by
  constructor
  · refine ⟨{ cf with Limit := 10 }, ?_, rfl⟩
    simp [recordedCategoryService, NewCategoryService, categoryService.GetAll,
      CategoryRepository.recorded, logged, hc]
  · intro c g hmem
    simp only [recordedProductService, NewProductService, productService.GetAll,
      ProductRepository.recorded, logged, hp, if_true] at hmem
    split at hmem
    · split at hmem
      · simp at hmem
      · simp at hmem
        rw [hmem.2]
    · simp at hmem
      rw [hmem.2]

/-- Witness of C1: category limit 0 and product limit -5 on the in-memory
repositories; both runs invoke `FindAll` once with limit 10. -/
theorem getAll_nonpositive_limit_defaults_to_ten_witness :
    ((categoryFilterWithLimit 0).Limit ≤ 0 ∧ (productFilterWith (-5) none none).Limit ≤ 0) ∧
    ((∃ g, ((recordedCategoryService memCategoryRepository).GetAll background
          (categoryFilterWithLimit 0) (store1, [])).2.2
        = [Call.CategoryFindAll background g] ∧ g.Limit = 10) ∧
     (∀ c g, Call.ProductFindAll c g ∈
        ((recordedProductService memProductRepository memCategoryRepository).GetAll
          background (productFilterWith (-5) none none) (store1, [])).2.2 → g.Limit = 10)) ∧
    ((recordedProductService memProductRepository memCategoryRepository).GetAll
        background (productFilterWith (-5) none none) (store1, [])).2.2
      = [Call.ProductFindAll background (productFilterWith 10 none none)] :=
  ⟨⟨by decide, by decide⟩,
   getAll_nonpositive_limit_defaults_to_ten memCategoryRepository memProductRepository
     background (categoryFilterWithLimit 0) (productFilterWith (-5) none none) store1
     (by decide) (by decide),
   by decide⟩

/-- C2: when the caller's limit exceeds 100, category `GetAll` invokes the
repository's `FindAll` exactly once with a filter whose limit is 100, and every
`FindAll` invocation made by product `GetAll` carries a filter whose limit is
100. -/
theorem getAll_limit_above_hundred_clamped {σ : Type}
    (cr : CategoryRepository σ) (pr : ProductRepository σ) (ctx : Context)
    (cf : CategoriesFilter) (pf : ProductFilter) (s : σ)
    (hc : cf.Limit > 100) (hp : pf.Limit > 100) :
    (∃ g, ((recordedCategoryService cr).GetAll ctx cf (s, [])).2.2
        = [Call.CategoryFindAll ctx g] ∧ g.Limit = 100) ∧
    (∀ c g, Call.ProductFindAll c g ∈
        ((recordedProductService pr cr).GetAll ctx pf (s, [])).2.2 → g.Limit = 100) := by
  have hc0 : ¬ cf.Limit ≤ 0 := by omega
  have hp0 : ¬ pf.Limit ≤ 0 := by omega
  constructor
  · refine ⟨{ cf with Limit := 100 }, ?_, rfl⟩
    simp [recordedCategoryService, NewCategoryService, categoryService.GetAll,
      CategoryRepository.recorded, logged, hc0, hc]
  · intro c g hmem
    simp only [recordedProductService, NewProductService, productService.GetAll,
      ProductRepository.recorded, logged, hp0, hp, if_true, if_false] at hmem
    split at hmem
    · split at hmem
      · simp at hmem
      · simp at hmem
        rw [hmem.2]
    · simp at hmem
      rw [hmem.2]

/-- Witness of C2: category limit 500 and product limit 200 on the in-memory
repositories; both runs invoke `FindAll` once with limit 100. -/
theorem getAll_limit_above_hundred_clamped_witness :
    ((categoryFilterWithLimit 500).Limit > 100 ∧ (productFilterWith 200 none none).Limit > 100) ∧
    ((∃ g, ((recordedCategoryService memCategoryRepository).GetAll background
          (categoryFilterWithLimit 500) (store1, [])).2.2
        = [Call.CategoryFindAll background g] ∧ g.Limit = 100) ∧
     (∀ c g, Call.ProductFindAll c g ∈
        ((recordedProductService memProductRepository memCategoryRepository).GetAll
          background (productFilterWith 200 none none) (store1, [])).2.2 → g.Limit = 100)) ∧
    ((recordedProductService memProductRepository memCategoryRepository).GetAll
        background (productFilterWith 200 none none) (store1, [])).2.2
      = [Call.ProductFindAll background (productFilterWith 100 none none)] :=
  ⟨⟨by decide, by decide⟩,
   getAll_limit_above_hundred_clamped memCategoryRepository memProductRepository
     background (categoryFilterWithLimit 500) (productFilterWith 200 none none) store1
     (by decide) (by decide),
   by decide⟩

/-- C3: for every input filter, the limit that category and product `GetAll`
pass to the repository's `FindAll` lies in the closed range from 1 to 100, and
it is the caller's limit whenever that limit already lies in this range. -/
theorem getAll_limit_in_range {σ : Type}
    (cr : CategoryRepository σ) (pr : ProductRepository σ) (ctx : Context)
    (cf : CategoriesFilter) (pf : ProductFilter) (s : σ) :
    (∃ g, ((recordedCategoryService cr).GetAll ctx cf (s, [])).2.2
        = [Call.CategoryFindAll ctx g] ∧ 1 ≤ g.Limit ∧ g.Limit ≤ 100 ∧
        (1 ≤ cf.Limit → cf.Limit ≤ 100 → g.Limit = cf.Limit)) ∧
    (∀ c g, Call.ProductFindAll c g ∈
        ((recordedProductService pr cr).GetAll ctx pf (s, [])).2.2 →
        1 ≤ g.Limit ∧ g.Limit ≤ 100 ∧
        (1 ≤ pf.Limit → pf.Limit ≤ 100 → g.Limit = pf.Limit)) := by
  constructor
  · refine ⟨_, rfl, ?_⟩
    split_ifs <;> simp_all <;> omega
  · intro c g hmem
    simp only [recordedProductService, NewProductService, productService.GetAll,
      ProductRepository.recorded, logged] at hmem
    have key : ∀ f : ProductFilter,
        f = (if (if pf.Limit ≤ 0 then { pf with Limit := 10 } else pf).Limit > 100
              then { (if pf.Limit ≤ 0 then { pf with Limit := 10 } else pf) with Limit := 100 }
              else (if pf.Limit ≤ 0 then { pf with Limit := 10 } else pf)) →
        1 ≤ f.Limit ∧ f.Limit ≤ 100 ∧ (1 ≤ pf.Limit → pf.Limit ≤ 100 → f.Limit = pf.Limit) := by
      intro f hf
      subst hf
      split_ifs <;> simp_all <;> omega
    split at hmem
    · split at hmem
      · simp at hmem
      · simp at hmem
        exact key g hmem.2
    · simp at hmem
      exact key g hmem.2

/-- Witness of C3: limits 20 (kept) and 0 (defaulted) on the in-memory
repositories. -/
theorem getAll_limit_in_range_witness :
    ((∃ g, ((recordedCategoryService memCategoryRepository).GetAll background
          (categoryFilterWithLimit 20) (store1, [])).2.2
        = [Call.CategoryFindAll background g] ∧ 1 ≤ g.Limit ∧ g.Limit ≤ 100 ∧
        (1 ≤ (categoryFilterWithLimit 20).Limit → (categoryFilterWithLimit 20).Limit ≤ 100 →
          g.Limit = (categoryFilterWithLimit 20).Limit)) ∧
     (∀ c g, Call.ProductFindAll c g ∈
        ((recordedProductService memProductRepository memCategoryRepository).GetAll
          background (productFilterWith 0 none none) (store1, [])).2.2 →
        1 ≤ g.Limit ∧ g.Limit ≤ 100 ∧
        (1 ≤ (productFilterWith 0 none none).Limit → (productFilterWith 0 none none).Limit ≤ 100 →
          g.Limit = (productFilterWith 0 none none).Limit))) ∧
    ((recordedCategoryService memCategoryRepository).GetAll background
        (categoryFilterWithLimit 20) (store1, [])).2.2
      = [Call.CategoryFindAll background (categoryFilterWithLimit 20)] :=
  ⟨getAll_limit_in_range memCategoryRepository memProductRepository background
     (categoryFilterWithLimit 20) (productFilterWith 0 none none) store1,
   by decide⟩

/-! ## Price-range validation of product `GetAll` -/

/-- The normalised filter keeps the price bounds (helper for the range check). -/
theorem productService_GetAll_eq {σ : Type} (p : productService σ) (ctx : Context)
    (pf : ProductFilter) (s : σ) :
    ∃ g : ProductFilter, g.MinPrice = pf.MinPrice ∧ g.MaxPrice = pf.MaxPrice ∧
      p.GetAll ctx pf s =
        (match pf.MinPrice, pf.MaxPrice with
          | some minPrice, some maxPrice =>
            if minPrice > maxPrice then
              ((none, some (ErrInvalidArgument.WithMessage
                "min price cannot be greater than max price")), s)
            else p.productRepo.FindAll ctx g s
          | _, _ => p.productRepo.FindAll ctx g s) := by
  by_cases h1 : pf.Limit ≤ 0
  · refine ⟨{ pf with Limit := 10 }, rfl, rfl, ?_⟩
    simp [productService.GetAll, h1]
  · by_cases h2 : pf.Limit > 100
    · refine ⟨{ pf with Limit := 100 }, rfl, rfl, ?_⟩
      simp [productService.GetAll, h1, h2]
    · refine ⟨pf, rfl, rfl, ?_⟩
      simp [productService.GetAll, h1, h2]

/-- C4: when both price bounds are present and the minimum exceeds the maximum,
product `GetAll` returns no list together with an `InvalidArgument` error whose
message contains "min price cannot be greater than max price", makes no
repository invocation and leaves the store as it was. -/
theorem getAll_inverted_price_range_rejected {σ : Type}
    (cr : CategoryRepository σ) (pr : ProductRepository σ) (ctx : Context)
    (pf : ProductFilter) (s : σ) (minPrice maxPrice : ℚ)
    (hmin : pf.MinPrice = some minPrice) (hmax : pf.MaxPrice = some maxPrice)
    (h : minPrice > maxPrice) :
    ((recordedProductService pr cr).GetAll ctx pf (s, [])).1.1 = none ∧
    (∃ m, ((recordedProductService pr cr).GetAll ctx pf (s, [])).1.2
        = some (Error.App ErrInvalidArgument.Code m) ∧
      "min price cannot be greater than max price".data <:+: m.data) ∧
    ((recordedProductService pr cr).GetAll ctx pf (s, [])).2 = (s, []) := by
  obtain ⟨g, _, _, hrun⟩ := productService_GetAll_eq (recordedProductService pr cr) ctx pf (s, [])
  rw [hrun, hmin, hmax]
  simp only []
  rw [if_pos h]
  exact ⟨rfl, ⟨_, rfl, List.infix_refl _⟩, rfl⟩

/-- Witness of C4: the filter with minimum price 100 and maximum price 50. -/
theorem getAll_inverted_price_range_rejected_witness :
    ((productFilterWith 20 (some 100) (some 50)).MinPrice = some 100 ∧
      (productFilterWith 20 (some 100) (some 50)).MaxPrice = some 50 ∧ (100 : ℚ) > 50) ∧
    (((recordedProductService memProductRepository memCategoryRepository).GetAll background
        (productFilterWith 20 (some 100) (some 50)) (store1, [])).1.1 = none ∧
     (∃ m, ((recordedProductService memProductRepository memCategoryRepository).GetAll background
          (productFilterWith 20 (some 100) (some 50)) (store1, [])).1.2
          = some (Error.App ErrInvalidArgument.Code m) ∧
        "min price cannot be greater than max price".data <:+: m.data) ∧
     ((recordedProductService memProductRepository memCategoryRepository).GetAll background
        (productFilterWith 20 (some 100) (some 50)) (store1, [])).2 = (store1, [])) :=
  ⟨⟨rfl, rfl, by norm_num⟩,
   getAll_inverted_price_range_rejected memCategoryRepository memProductRepository background
     (productFilterWith 20 (some 100) (some 50)) store1 100 50 rfl rfl (by norm_num)⟩

/-- Product `GetAll` on logging repositories when the range check fails. -/
theorem recorded_GetAll_of_inverted {σ : Type}
    (cr : CategoryRepository σ) (pr : ProductRepository σ) (ctx : Context)
    (pf : ProductFilter) (s : σ)
    (h : ∃ a b, pf.MinPrice = some a ∧ pf.MaxPrice = some b ∧ a > b) :
    (recordedProductService pr cr).GetAll ctx pf (s, []) =
      ((none, some (ErrInvalidArgument.WithMessage
        "min price cannot be greater than max price")), (s, [])) := by
  obtain ⟨a, b, ha, hb, hab⟩ := h
  obtain ⟨g, _, _, hrun⟩ := productService_GetAll_eq (recordedProductService pr cr) ctx pf (s, [])
  rw [hrun, ha, hb]
  simp only []
  rw [if_pos hab]

/-- Product `GetAll` on logging repositories when no range check fails. -/
theorem recorded_GetAll_of_not_inverted {σ : Type}
    (cr : CategoryRepository σ) (pr : ProductRepository σ) (ctx : Context)
    (pf : ProductFilter) (s : σ)
    (h : ¬ ∃ a b, pf.MinPrice = some a ∧ pf.MaxPrice = some b ∧ a > b) :
    ∃ g : ProductFilter, g.MinPrice = pf.MinPrice ∧ g.MaxPrice = pf.MaxPrice ∧
      (recordedProductService pr cr).GetAll ctx pf (s, []) =
        ((pr.FindAll ctx g s).1, ((pr.FindAll ctx g s).2, [Call.ProductFindAll ctx g])) := by
  obtain ⟨g, hg1, hg2, hrun⟩ :=
    productService_GetAll_eq (recordedProductService pr cr) ctx pf (s, [])
  refine ⟨g, hg1, hg2, ?_⟩
  rw [hrun]
  rcases hmn : pf.MinPrice with _ | a <;> rcases hmx : pf.MaxPrice with _ | b <;>
    simp only [] <;>
    try rfl
  have hab : ¬ a > b := fun hab => h ⟨a, b, hmn, hmx, hab⟩
  rw [if_neg hab]
  rfl

/-- C5: the range check of product `GetAll` fails (the price-range error is
returned with no list and without any repository invocation) exactly when both
bounds are present and the minimum exceeds the maximum; in every other case
(one bound or none, or minimum at most the maximum) `FindAll` is invoked
exactly once and its list, error and resulting store are returned unchanged. -/
theorem getAll_price_range_error_iff {σ : Type}
    (cr : CategoryRepository σ) (pr : ProductRepository σ) (ctx : Context)
    (pf : ProductFilter) (s : σ) :
    ((((recordedProductService pr cr).GetAll ctx pf (s, [])).1 =
          (none, some (ErrInvalidArgument.WithMessage
            "min price cannot be greater than max price")) ∧
        ((recordedProductService pr cr).GetAll ctx pf (s, [])).2 = (s, [])) ↔
      ∃ a b, pf.MinPrice = some a ∧ pf.MaxPrice = some b ∧ a > b) ∧
    ((¬ ∃ a b, pf.MinPrice = some a ∧ pf.MaxPrice = some b ∧ a > b) →
      ∃ g : ProductFilter, g.MinPrice = pf.MinPrice ∧ g.MaxPrice = pf.MaxPrice ∧
        ((recordedProductService pr cr).GetAll ctx pf (s, [])).2.2
          = [Call.ProductFindAll ctx g] ∧
        ((recordedProductService pr cr).GetAll ctx pf (s, [])).1 = (pr.FindAll ctx g s).1 ∧
        ((recordedProductService pr cr).GetAll ctx pf (s, [])).2.1 = (pr.FindAll ctx g s).2) := by
  constructor
  · constructor
    · intro hout
      by_contra hne
      obtain ⟨g, _, _, hrun⟩ := recorded_GetAll_of_not_inverted cr pr ctx pf s hne
      rw [hrun] at hout
      simp at hout
    · intro h
      rw [recorded_GetAll_of_inverted cr pr ctx pf s h]
      exact ⟨rfl, rfl⟩
  · intro hne
    obtain ⟨g, hg1, hg2, hrun⟩ := recorded_GetAll_of_not_inverted cr pr ctx pf s hne
    exact ⟨g, hg1, hg2, by rw [hrun], by rw [hrun], by rw [hrun]⟩

/-- Witness of C5: with equal bounds (50 and 50) no range check fails and
`FindAll` is invoked once; with bounds 100 and 50 the check fails. -/
theorem getAll_price_range_error_iff_witness :
    (∃ g : ProductFilter, g.MinPrice = some 50 ∧ g.MaxPrice = some 50 ∧
      ((recordedProductService memProductRepository memCategoryRepository).GetAll background
        (productFilterWith 20 (some 50) (some 50)) (store1, [])).2.2
        = [Call.ProductFindAll background g] ∧
      ((recordedProductService memProductRepository memCategoryRepository).GetAll background
        (productFilterWith 20 (some 50) (some 50)) (store1, [])).1
        = (memProductRepository.FindAll background g store1).1 ∧
      ((recordedProductService memProductRepository memCategoryRepository).GetAll background
        (productFilterWith 20 (some 50) (some 50)) (store1, [])).2.1
        = (memProductRepository.FindAll background g store1).2) ∧
    ((recordedProductService memProductRepository memCategoryRepository).GetAll background
        (productFilterWith 20 (some 100) (some 50)) (store1, [])).2 = (store1, []) :=
  ⟨(getAll_price_range_error_iff memCategoryRepository memProductRepository background
      (productFilterWith 20 (some 50) (some 50)) store1).2
      (by
        rintro ⟨a, b, ha, hb, hab⟩
        have ha2 : (50 : ℚ) = a := Option.some.inj ha
        have hb2 : (50 : ℚ) = b := Option.some.inj hb
        rw [← ha2, ← hb2] at hab
        exact lt_irrefl _ hab),
   ((getAll_price_range_error_iff memCategoryRepository memProductRepository background
      (productFilterWith 20 (some 100) (some 50)) store1).1.2
      ⟨100, 50, rfl, rfl, by norm_num⟩).2⟩

/-! ## Category reference check of product `Create` and `Update` -/

/-- The category check on logging repositories: one `FindByID` invocation,
whose error is the outcome. -/
theorem recorded_validateCategory {σ : Type}
    (cr : CategoryRepository σ) (pr : ProductRepository σ) (ctx : Context)
    (id : String) (s : σ) (t : List Call) :
    (recordedProductService pr cr).validateCategory ctx id (s, t) =
      ((cr.FindByID ctx id s).1.2,
        ((cr.FindByID ctx id s).2, t ++ [Call.CategoryFindByID ctx id])) := by
  simp only [recordedProductService, NewProductService, productService.validateCategory,
    CategoryRepository.recorded, logged]
  rcases hf : cr.FindByID ctx id s with ⟨⟨c, e⟩, s1⟩
  cases e <;> rfl

/-- Product `Create` on logging repositories, when the category lookup fails. -/
theorem recorded_Create_of_lookup_error {σ : Type}
    (cr : CategoryRepository σ) (pr : ProductRepository σ) (ctx : Context)
    (product : Product) (s : σ) (e : Error)
    (h : (cr.FindByID ctx product.CategoryID s).1.2 = some e) :
    (recordedProductService pr cr).Create ctx product (s, []) =
      (("", some e), ((cr.FindByID ctx product.CategoryID s).2,
        [Call.CategoryFindByID ctx product.CategoryID])) := by
  unfold productService.Create
  rw [recorded_validateCategory, h]
  rfl

/-- Product `Create` on logging repositories, when the category lookup
succeeds. -/
theorem recorded_Create_of_lookup_ok {σ : Type}
    (cr : CategoryRepository σ) (pr : ProductRepository σ) (ctx : Context)
    (product : Product) (s : σ)
    (h : (cr.FindByID ctx product.CategoryID s).1.2 = none) :
    (recordedProductService pr cr).Create ctx product (s, []) =
      ((match (pr.Create ctx (some product) (cr.FindByID ctx product.CategoryID s).2).1 with
        | (_, some err) => ("", some err)
        | (id, none) => (id, none)),
       ((pr.Create ctx (some product) (cr.FindByID ctx product.CategoryID s).2).2,
        [Call.CategoryFindByID ctx product.CategoryID,
          Call.ProductCreate ctx (some product)])) := by
  unfold productService.Create
  rw [recorded_validateCategory, h]
  simp only [recordedProductService, NewProductService, ProductRepository.recorded, logged]
  rcases hc : pr.Create ctx (some product) (cr.FindByID ctx product.CategoryID s).2
    with ⟨⟨i, e⟩, s2⟩
  cases e <;> rfl

/-- C6: when the category repository's `FindByID` answers the product's
`categoryId` with error `e`, product `Create` returns the empty id together
with exactly `e`, and its only repository invocation is that lookup: the
product repository is not invoked. -/
theorem create_unresolved_category_propagates {σ : Type}
    (cr : CategoryRepository σ) (pr : ProductRepository σ) (ctx : Context)
    (product : Product) (s : σ) (e : Error)
    (h : (cr.FindByID ctx product.CategoryID s).1.2 = some e) :
    ((recordedProductService pr cr).Create ctx product (s, [])).1 = ("", some e) ∧
    ((recordedProductService pr cr).Create ctx product (s, [])).2.2
      = [Call.CategoryFindByID ctx product.CategoryID] ∧
    ((recordedProductService pr cr).Create ctx product (s, [])).2.1
      = (cr.FindByID ctx product.CategoryID s).2 := by
  rw [recorded_Create_of_lookup_error cr pr ctx product s e h]
  exact ⟨rfl, rfl, rfl⟩

/-- The product repository's `Create` returns an id without an error, or the
empty id with an error. -/
theorem NewProductRepository_Create_shape {σ : Type} (db : gorm.DB σ) (ctx : Context)
    (product : Option Product) (s : σ) :
    (∃ id, ((NewProductRepository db).Create ctx product s).1 = (id, none)) ∨
    (∃ e, ((NewProductRepository db).Create ctx product s).1 = ("", some e)) := by
  simp only [NewProductRepository, productRepository.Create]
  cases product with
  | none => exact Or.inr ⟨_, rfl⟩
  | some p =>
    simp only []
    split
    · exact Or.inr ⟨_, rfl⟩
    · exact Or.inl ⟨_, rfl⟩

/-- Product `Create` on logging repositories, when the category lookup succeeds
and the product repository returns the empty id with every error: the
outcome is the product repository's, as it is. -/
theorem recorded_Create_of_lookup_ok_eq {σ : Type}
    (cr : CategoryRepository σ) (pr : ProductRepository σ) (ctx : Context)
    (product : Product) (s : σ)
    (h : (cr.FindByID ctx product.CategoryID s).1.2 = none)
    (hshape :
      (∃ id, (pr.Create ctx (some product) (cr.FindByID ctx product.CategoryID s).2).1
        = (id, none)) ∨
      (∃ e, (pr.Create ctx (some product) (cr.FindByID ctx product.CategoryID s).2).1
        = ("", some e))) :
    (recordedProductService pr cr).Create ctx product (s, []) =
      ((pr.Create ctx (some product) (cr.FindByID ctx product.CategoryID s).2).1,
       ((pr.Create ctx (some product) (cr.FindByID ctx product.CategoryID s).2).2,
        [Call.CategoryFindByID ctx product.CategoryID,
          Call.ProductCreate ctx (some product)])) := by
  rw [recorded_Create_of_lookup_ok cr pr ctx product s h]
  rcases hshape with ⟨i, hi⟩ | ⟨e, he⟩
  · rw [hi]
  · rw [he]

/-- C7: when the category lookup succeeds, product `Create` invokes the
category repository's `FindByID` exactly once with the product's `categoryId`,
then the product repository's `Create` exactly once with the product
unchanged, and returns exactly the id, and the error, that the product
repository returned; the store is the one that call left. -/
theorem create_resolved_category_delegates {σ : Type}
    (cr : CategoryRepository σ) (db : gorm.DB σ) (ctx : Context)
    (product : Product) (s : σ)
    (h : (cr.FindByID ctx product.CategoryID s).1.2 = none) :
    ((recordedProductService (NewProductRepository db) cr).Create ctx product (s, [])).2.2
      = [Call.CategoryFindByID ctx product.CategoryID,
          Call.ProductCreate ctx (some product)] ∧
    ((recordedProductService (NewProductRepository db) cr).Create ctx product (s, [])).1
      = ((NewProductRepository db).Create ctx (some product)
          (cr.FindByID ctx product.CategoryID s).2).1 ∧
    ((recordedProductService (NewProductRepository db) cr).Create ctx product (s, [])).2.1
      = ((NewProductRepository db).Create ctx (some product)
          (cr.FindByID ctx product.CategoryID s).2).2 := by
  rw [recorded_Create_of_lookup_ok_eq cr (NewProductRepository db) ctx product s h
    (NewProductRepository_Create_shape db ctx (some product) _)]
  exact ⟨rfl, rfl, rfl⟩

/-- Witness of C6: creating a product whose category is not in the store. -/
theorem create_unresolved_category_propagates_witness :
    (memCategoryRepository.FindByID background orphan.CategoryID store1).1.2
      = some (ErrNotFound.WithMessage "category not found") ∧
    (((recordedProductService memProductRepository memCategoryRepository).Create
        background orphan (store1, [])).1
        = ("", some (ErrNotFound.WithMessage "category not found")) ∧
     ((recordedProductService memProductRepository memCategoryRepository).Create
        background orphan (store1, [])).2.2
        = [Call.CategoryFindByID background orphan.CategoryID] ∧
     ((recordedProductService memProductRepository memCategoryRepository).Create
        background orphan (store1, [])).2.1
        = (memCategoryRepository.FindByID background orphan.CategoryID store1).2) :=
  ⟨by decide,
   create_unresolved_category_propagates memCategoryRepository memProductRepository
     background orphan store1 (ErrNotFound.WithMessage "category not found") (by decide)⟩

/-- Witness of C7: creating the product `p1` in category `c1` on the
in-memory database; the product repository returns the id `p1`, and so does
the service. -/
theorem create_resolved_category_delegates_witness :
    ((NewCategoryRepository (gorm.Open memBackend)).FindByID background phone.CategoryID
        memDB1).1.2 = none ∧
    ((recordedProductService (NewProductRepository (gorm.Open memBackend))
        (NewCategoryRepository (gorm.Open memBackend))).Create background phone
        (memDB1, [])).2.2
      = [Call.CategoryFindByID background "c1", Call.ProductCreate background (some phone)] ∧
    ((recordedProductService (NewProductRepository (gorm.Open memBackend))
        (NewCategoryRepository (gorm.Open memBackend))).Create background phone
        (memDB1, [])).1 = ("p1", none) :=
  ⟨rfl,
   (create_resolved_category_delegates (NewCategoryRepository (gorm.Open memBackend))
      (gorm.Open memBackend) background phone memDB1 rfl).1,
   (create_resolved_category_delegates (NewCategoryRepository (gorm.Open memBackend))
      (gorm.Open memBackend) background phone memDB1 rfl).2.1.trans rfl⟩

/-- Product `Update` on logging repositories, when the payload carries a
category reference whose lookup fails. -/
theorem recorded_Update_of_lookup_error {σ : Type}
    (cr : CategoryRepository σ) (pr : ProductRepository σ) (ctx : Context)
    (id : String) (product : Product) (s : σ) (e : Error)
    (hne : product.CategoryID ≠ "")
    (h : (cr.FindByID ctx product.CategoryID s).1.2 = some e) :
    (recordedProductService pr cr).Update ctx id product (s, []) =
      (some e, ((cr.FindByID ctx product.CategoryID s).2,
        [Call.CategoryFindByID ctx product.CategoryID])) := by
  unfold productService.Update
  simp only [hne, ne_eq, not_false_eq_true, if_true]
  rw [recorded_validateCategory, h]
  rfl

/-- Product `Update` on logging repositories, when the payload carries a
category reference whose lookup succeeds. -/
theorem recorded_Update_of_lookup_ok {σ : Type}
    (cr : CategoryRepository σ) (pr : ProductRepository σ) (ctx : Context)
    (id : String) (product : Product) (s : σ)
    (hne : product.CategoryID ≠ "")
    (h : (cr.FindByID ctx product.CategoryID s).1.2 = none) :
    (recordedProductService pr cr).Update ctx id product (s, []) =
      ((pr.Update ctx (some { product with ID := id })
          (cr.FindByID ctx product.CategoryID s).2).1,
        ((pr.Update ctx (some { product with ID := id })
          (cr.FindByID ctx product.CategoryID s).2).2,
         [Call.CategoryFindByID ctx product.CategoryID,
          Call.ProductUpdate ctx (some { product with ID := id })])) := by
  unfold productService.Update
  simp only [hne, ne_eq, not_false_eq_true, if_true]
  rw [recorded_validateCategory, h]
  rfl

/-- Product `Update` on logging repositories, when the payload carries no
category reference. -/
theorem recorded_Update_of_empty {σ : Type}
    (cr : CategoryRepository σ) (pr : ProductRepository σ) (ctx : Context)
    (id : String) (product : Product) (s : σ)
    (he : product.CategoryID = "") :
    (recordedProductService pr cr).Update ctx id product (s, []) =
      ((pr.Update ctx (some { product with ID := id }) s).1,
        ((pr.Update ctx (some { product with ID := id }) s).2,
         [Call.ProductUpdate ctx (some { product with ID := id })])) := by
  unfold productService.Update
  simp only [he, ne_eq, not_true_eq_false, if_false]
  rfl

/-- C8: when the payload of product `Update` carries a non-empty `categoryId`
that the category repository's `FindByID` answers with error `e`, `Update`
returns exactly `e` and its only repository invocation is that lookup: the
product repository's `Update` is not invoked. -/
theorem update_unresolved_category_propagates {σ : Type}
    (cr : CategoryRepository σ) (pr : ProductRepository σ) (ctx : Context)
    (id : String) (product : Product) (s : σ) (e : Error)
    (hne : product.CategoryID ≠ "")
    (h : (cr.FindByID ctx product.CategoryID s).1.2 = some e) :
    ((recordedProductService pr cr).Update ctx id product (s, [])).1 = some e ∧
    ((recordedProductService pr cr).Update ctx id product (s, [])).2.2
      = [Call.CategoryFindByID ctx product.CategoryID] ∧
    (∀ c q, Call.ProductUpdate c q ∉
      ((recordedProductService pr cr).Update ctx id product (s, [])).2.2) := by
  rw [recorded_Update_of_lookup_error cr pr ctx id product s e hne h]
  refine ⟨rfl, rfl, ?_⟩
  intro c q hmem
  simp at hmem

/-- Witness of C8: updating with a category that is not in the store. -/
theorem update_unresolved_category_propagates_witness :
    (orphan.CategoryID ≠ "" ∧
      (memCategoryRepository.FindByID background orphan.CategoryID store1).1.2
        = some (ErrNotFound.WithMessage "category not found")) ∧
    (((recordedProductService memProductRepository memCategoryRepository).Update
        background "p1" orphan (store1, [])).1
        = some (ErrNotFound.WithMessage "category not found") ∧
     ((recordedProductService memProductRepository memCategoryRepository).Update
        background "p1" orphan (store1, [])).2.2
        = [Call.CategoryFindByID background orphan.CategoryID] ∧
     (∀ c q, Call.ProductUpdate c q ∉
        ((recordedProductService memProductRepository memCategoryRepository).Update
          background "p1" orphan (store1, [])).2.2)) :=
  ⟨⟨by decide, by decide⟩,
   update_unresolved_category_propagates memCategoryRepository memProductRepository
     background "p1" orphan store1 (ErrNotFound.WithMessage "category not found")
     (by decide) (by decide)⟩

/-- C9: when the payload of product `Update` has an empty `categoryId`, the
category repository is not invoked; the product repository's `Update` is
invoked exactly once, with the payload carrying the supplied id, and its
result and resulting store are what `Update` returns. -/
theorem update_empty_category_skips_check {σ : Type}
    (cr : CategoryRepository σ) (pr : ProductRepository σ) (ctx : Context)
    (id : String) (product : Product) (s : σ)
    (he : product.CategoryID = "") :
    ((recordedProductService pr cr).Update ctx id product (s, [])).2.2
      = [Call.ProductUpdate ctx (some { product with ID := id })] ∧
    ((recordedProductService pr cr).Update ctx id product (s, [])).1
      = (pr.Update ctx (some { product with ID := id }) s).1 ∧
    ((recordedProductService pr cr).Update ctx id product (s, [])).2.1
      = (pr.Update ctx (some { product with ID := id }) s).2 := by
  rw [recorded_Update_of_empty cr pr ctx id product s he]
  exact ⟨rfl, rfl, rfl⟩

/-- Witness of C9: an update payload with an empty category reference. -/
theorem update_empty_category_skips_check_witness :
    renamed.CategoryID = "" ∧
    (((recordedProductService memProductRepository memCategoryRepository).Update
        background "p1" renamed (store1, [])).2.2
        = [Call.ProductUpdate background (some { renamed with ID := "p1" })] ∧
     ((recordedProductService memProductRepository memCategoryRepository).Update
        background "p1" renamed (store1, [])).1
        = (memProductRepository.Update background (some { renamed with ID := "p1" }) store1).1 ∧
     ((recordedProductService memProductRepository memCategoryRepository).Update
        background "p1" renamed (store1, [])).2.1
        = (memProductRepository.Update background (some { renamed with ID := "p1" }) store1).2) :=
  ⟨by decide,
   update_empty_category_skips_check memCategoryRepository memProductRepository
     background "p1" renamed store1 (by decide)⟩

/-! ## Identifier stamping of `Update` -/

/-- C10: category `Update` invokes the repository's `Update` exactly once with
an entity whose id is the supplied id and whose other fields are the payload's;
every `Update` invocation that product `Update` makes on the product repository
carries an entity whose id is the supplied id and whose other fields are the
payload's, whatever id the payload carried; and that invocation is made
whenever the category check is skipped or passes. -/
theorem update_stamps_supplied_id {σ : Type}
    (cr : CategoryRepository σ) (pr : ProductRepository σ) (ctx : Context)
    (id : String) (category : Category) (product : Product) (s : σ) :
    (∃ c, ((recordedCategoryService cr).Update ctx id category (s, [])).2.2
        = [Call.CategoryUpdate ctx (some c)] ∧
      c.ID = id ∧ c.Name = category.Name ∧ c.CreatedAt = category.CreatedAt ∧
      c.UpdatedAt = category.UpdatedAt) ∧
    (∀ c q, Call.ProductUpdate c q ∈
        ((recordedProductService pr cr).Update ctx id product (s, [])).2.2 →
      ∃ p, q = some p ∧ p.ID = id ∧ p.Name = product.Name ∧
        p.Description = product.Description ∧ p.SKU = product.SKU ∧
        p.Price = product.Price ∧ p.Stock = product.Stock ∧
        p.ImageURL = product.ImageURL ∧ p.CreatedAt = product.CreatedAt ∧
        p.UpdatedAt = product.UpdatedAt ∧ p.CategoryID = product.CategoryID ∧
        p.Category = product.Category) ∧
    ((product.CategoryID = "" ∨ (cr.FindByID ctx product.CategoryID s).1.2 = none) →
      Call.ProductUpdate ctx (some { product with ID := id }) ∈
        ((recordedProductService pr cr).Update ctx id product (s, [])).2.2) := by
  refine ⟨⟨{ category with ID := id }, rfl, rfl, rfl, rfl, rfl⟩, ?_, ?_⟩
  · intro c q hmem
    by_cases he : product.CategoryID = ""
    · rw [recorded_Update_of_empty cr pr ctx id product s he] at hmem
      simp only [List.mem_singleton, Call.ProductUpdate.injEq] at hmem
      exact ⟨{ product with ID := id }, hmem.2, rfl, rfl, rfl, rfl, rfl, rfl, rfl, rfl, rfl,
        rfl, rfl⟩
    · rcases h : (cr.FindByID ctx product.CategoryID s).1.2 with _ | e
      · rw [recorded_Update_of_lookup_ok cr pr ctx id product s he h] at hmem
        simp only [List.mem_cons, List.mem_singleton, Call.ProductUpdate.injEq,
          List.mem_nil_iff, or_false, false_or, reduceCtorEq] at hmem
        exact ⟨{ product with ID := id }, hmem.2, rfl, rfl, rfl, rfl, rfl, rfl, rfl, rfl, rfl,
          rfl, rfl⟩
      · rw [recorded_Update_of_lookup_error cr pr ctx id product s e he h] at hmem
        simp at hmem
  · intro hok
    by_cases he : product.CategoryID = ""
    · rw [recorded_Update_of_empty cr pr ctx id product s he]
      simp
    · rcases hok with h | h
      · exact absurd h he
      · rw [recorded_Update_of_lookup_ok cr pr ctx id product s he h]
        simp

/-- Witness of C10: payloads that carry an id of their own (`other`, `p1`)
reach the repositories with the supplied id. -/
theorem update_stamps_supplied_id_witness :
    ((∃ c, ((recordedCategoryService memCategoryRepository).Update background "p9"
          { ID := "other", Name := "Audio", CreatedAt := 3, UpdatedAt := 4 } (store1, [])).2.2
          = [Call.CategoryUpdate background (some c)] ∧
        c.ID = "p9" ∧ c.Name = "Audio" ∧ c.CreatedAt = 3 ∧ c.UpdatedAt = 4) ∧
     (∀ c q, Call.ProductUpdate c q ∈
          ((recordedProductService memProductRepository memCategoryRepository).Update
            background "p9" phone (store1, [])).2.2 →
        ∃ p, q = some p ∧ p.ID = "p9" ∧ p.Name = phone.Name ∧
          p.Description = phone.Description ∧ p.SKU = phone.SKU ∧
          p.Price = phone.Price ∧ p.Stock = phone.Stock ∧
          p.ImageURL = phone.ImageURL ∧ p.CreatedAt = phone.CreatedAt ∧
          p.UpdatedAt = phone.UpdatedAt ∧ p.CategoryID = phone.CategoryID ∧
          p.Category = phone.Category) ∧
     ((phone.CategoryID = "" ∨
          (memCategoryRepository.FindByID background phone.CategoryID store1).1.2 = none) →
        Call.ProductUpdate background (some { phone with ID := "p9" }) ∈
          ((recordedProductService memProductRepository memCategoryRepository).Update
            background "p9" phone (store1, [])).2.2)) ∧
    ((recordedProductService memProductRepository memCategoryRepository).Update
        background "p9" phone (store1, [])).2.2
      = [Call.CategoryFindByID background "c1",
          Call.ProductUpdate background (some { phone with ID := "p9" })] :=
  ⟨update_stamps_supplied_id memCategoryRepository memProductRepository background "p9"
     { ID := "other", Name := "Audio", CreatedAt := 3, UpdatedAt := 4 } phone store1,
   by decide⟩

/-! ## Partial update of a product -/

/-- The empty map has no entry. -/
theorem ColumnMap.get?_make (k : String) : ColumnMap.make.get? k = none := rfl

/-- After `m[k] = v` the key `k` holds `v`. -/
theorem ColumnMap.get?_set_self (m : ColumnMap) (k : String) (v : Value) :
    (m.set k v).get? k = some v := by
  simp only [ColumnMap.set, ColumnMap.get?]
  rw [List.find?_append]
  have h : (m.entries.filter (fun e => e.1 != k)).find? (fun e => e.1 == k) = none := by
    rw [List.find?_eq_none]
    intro x hx
    have := (List.mem_filter.mp hx).2
    simpa using this
  rw [h]
  simp

/-- Dropping the entries of one key does not change the lookup of another. -/
theorem find?_filter_ne (k k2 : String) (h : k2 ≠ k) (xs : List (String × Value)) :
    (xs.filter (fun e => e.1 != k)).find? (fun e => e.1 == k2)
      = xs.find? (fun e => e.1 == k2) := by
  induction xs with
  | nil => rfl
  | cons x xs ih =>
    by_cases hx : x.1 = k
    · have hb : (x.1 != k) = false := by simp [hx]
      have hb2 : (x.1 == k2) = false := by
        have : x.1 ≠ k2 := by rw [hx]; exact Ne.symm h
        simp [this]
      rw [List.filter_cons, List.find?_cons]
      simp only [hb, hb2]
      exact ih
    · have hb : (x.1 != k) = true := by simp [hx]
      rw [List.filter_cons]
      simp only [hb, if_true]
      rw [List.find?_cons, List.find?_cons, ih]

/-- The assignment `m[k] = v` leaves every other key as it was. -/
theorem ColumnMap.get?_set_ne (m : ColumnMap) (k k2 : String) (v : Value) (h : k2 ≠ k) :
    (m.set k v).get? k2 = m.get? k2 := by
  simp only [ColumnMap.set, ColumnMap.get?]
  rw [List.find?_append]
  have h1 : List.find? (fun e => e.1 == k2) [(k, v)] = none := by
    simp [Ne.symm h]
  rw [h1, Option.or_none, find?_filter_ne k k2 h]

/-- Lookup of `k` after a guarded assignment to `k`. -/
theorem ColumnMap.get?_ite_set_self (c : Prop) [Decidable c] (m : ColumnMap) (k : String)
    (v : Value) :
    (if c then m.set k v else m).get? k = if c then some v else m.get? k := by
  by_cases hc : c
  · simp only [hc, if_true, ColumnMap.get?_set_self]
  · simp only [hc, if_false]

/-- Lookup of another key after a guarded assignment to `k`. -/
theorem ColumnMap.get?_ite_set_ne (c : Prop) [Decidable c] (m : ColumnMap) (k k2 : String)
    (v : Value) (h : k2 ≠ k) :
    (if c then m.set k v else m).get? k2 = m.get? k2 := by
  by_cases hc : c
  · simp only [hc, if_true, ColumnMap.get?_set_ne m k k2 v h]
  · simp only [hc, if_false]

/-- An assignment keeps the keys of a map distinct. -/
theorem ColumnMap.keys_nodup_set (m : ColumnMap) (k : String) (v : Value)
    (h : (m.entries.map Prod.fst).Nodup) : ((m.set k v).entries.map Prod.fst).Nodup := by
  simp only [ColumnMap.set, List.map_append, List.map_cons, List.map_nil]
  rw [List.nodup_append]
  refine ⟨?_, List.nodup_singleton k, ?_⟩
  · exact (h.sublist ((List.filter_sublist _).map Prod.fst))
  · intro a ha hk
    rw [List.mem_singleton] at hk
    subst hk
    rw [List.mem_map] at ha
    obtain ⟨x, hx, hxa⟩ := ha
    have := (List.mem_filter.mp hx).2
    simp [hxa] at this

/-- A guarded assignment keeps the keys of a map distinct. -/
theorem ColumnMap.keys_nodup_ite_set (c : Prop) [Decidable c] (m : ColumnMap) (k : String)
    (v : Value) (h : (m.entries.map Prod.fst).Nodup) :
    ((if c then m.set k v else m).entries.map Prod.fst).Nodup := by
  by_cases hc : c
  · simp only [hc, if_true]
    exact ColumnMap.keys_nodup_set m k v h
  · simp only [hc, if_false]
    exact h

/-- The entries of the column map of a non-nil product. -/
theorem ToUpdateProductModel_entries (p : Product) :
    ∃ m, ToUpdateProductModel (some p) = some m ∧
      m.get? "name" = (if p.Name ≠ "" then some (Value.Str p.Name) else none) ∧
      m.get? "description"
        = (if p.Description ≠ "" then some (Value.Str p.Description) else none) ∧
      m.get? "sku" = (if p.SKU ≠ "" then some (Value.Str p.SKU) else none) ∧
      m.get? "category_id"
        = (if p.CategoryID ≠ "" then some (Value.Str p.CategoryID) else none) ∧
      m.get? "price" = (if p.Price ≠ none then some (Value.FloatPtr p.Price) else none) ∧
      m.get? "stock" = (if p.Stock ≠ none then some (Value.IntPtr p.Stock) else none) ∧
      m.get? "image_url"
        = (if p.ImageURL ≠ none then some (Value.StrPtr p.ImageURL) else none) ∧
      (∀ k, k ∉ ["name", "description", "sku", "category_id", "price", "stock", "image_url"] →
        m.get? k = none) ∧
      (m.entries.map Prod.fst).Nodup := by
  refine ⟨_, rfl, ?_, ?_, ?_, ?_, ?_, ?_, ?_, ?_, ?_⟩
  · dsimp only
    rw [ColumnMap.get?_ite_set_ne _ _ _ _ _ (by decide),
      ColumnMap.get?_ite_set_ne _ _ _ _ _ (by decide),
      ColumnMap.get?_ite_set_ne _ _ _ _ _ (by decide),
      ColumnMap.get?_ite_set_ne _ _ _ _ _ (by decide),
      ColumnMap.get?_ite_set_ne _ _ _ _ _ (by decide),
      ColumnMap.get?_ite_set_ne _ _ _ _ _ (by decide),
      ColumnMap.get?_ite_set_self, ColumnMap.get?_make]
  · dsimp only
    rw [ColumnMap.get?_ite_set_ne _ _ _ _ _ (by decide),
      ColumnMap.get?_ite_set_ne _ _ _ _ _ (by decide),
      ColumnMap.get?_ite_set_ne _ _ _ _ _ (by decide),
      ColumnMap.get?_ite_set_ne _ _ _ _ _ (by decide),
      ColumnMap.get?_ite_set_ne _ _ _ _ _ (by decide),
      ColumnMap.get?_ite_set_self,
      ColumnMap.get?_ite_set_ne _ _ _ _ _ (by decide), ColumnMap.get?_make]
  · dsimp only
    rw [ColumnMap.get?_ite_set_ne _ _ _ _ _ (by decide),
      ColumnMap.get?_ite_set_ne _ _ _ _ _ (by decide),
      ColumnMap.get?_ite_set_ne _ _ _ _ _ (by decide),
      ColumnMap.get?_ite_set_ne _ _ _ _ _ (by decide),
      ColumnMap.get?_ite_set_self,
      ColumnMap.get?_ite_set_ne _ _ _ _ _ (by decide),
      ColumnMap.get?_ite_set_ne _ _ _ _ _ (by decide), ColumnMap.get?_make]
  · dsimp only
    rw [ColumnMap.get?_ite_set_self,
      ColumnMap.get?_ite_set_ne _ _ _ _ _ (by decide),
      ColumnMap.get?_ite_set_ne _ _ _ _ _ (by decide),
      ColumnMap.get?_ite_set_ne _ _ _ _ _ (by decide),
      ColumnMap.get?_ite_set_ne _ _ _ _ _ (by decide),
      ColumnMap.get?_ite_set_ne _ _ _ _ _ (by decide),
      ColumnMap.get?_ite_set_ne _ _ _ _ _ (by decide), ColumnMap.get?_make]
  · dsimp only
    rw [ColumnMap.get?_ite_set_ne _ _ _ _ _ (by decide),
      ColumnMap.get?_ite_set_ne _ _ _ _ _ (by decide),
      ColumnMap.get?_ite_set_ne _ _ _ _ _ (by decide),
      ColumnMap.get?_ite_set_self,
      ColumnMap.get?_ite_set_ne _ _ _ _ _ (by decide),
      ColumnMap.get?_ite_set_ne _ _ _ _ _ (by decide),
      ColumnMap.get?_ite_set_ne _ _ _ _ _ (by decide), ColumnMap.get?_make]
  · dsimp only
    rw [ColumnMap.get?_ite_set_ne _ _ _ _ _ (by decide),
      ColumnMap.get?_ite_set_ne _ _ _ _ _ (by decide),
      ColumnMap.get?_ite_set_self,
      ColumnMap.get?_ite_set_ne _ _ _ _ _ (by decide),
      ColumnMap.get?_ite_set_ne _ _ _ _ _ (by decide),
      ColumnMap.get?_ite_set_ne _ _ _ _ _ (by decide),
      ColumnMap.get?_ite_set_ne _ _ _ _ _ (by decide), ColumnMap.get?_make]
  · dsimp only
    rw [ColumnMap.get?_ite_set_ne _ _ _ _ _ (by decide),
      ColumnMap.get?_ite_set_self,
      ColumnMap.get?_ite_set_ne _ _ _ _ _ (by decide),
      ColumnMap.get?_ite_set_ne _ _ _ _ _ (by decide),
      ColumnMap.get?_ite_set_ne _ _ _ _ _ (by decide),
      ColumnMap.get?_ite_set_ne _ _ _ _ _ (by decide),
      ColumnMap.get?_ite_set_ne _ _ _ _ _ (by decide), ColumnMap.get?_make]
  · intro k hk
    simp only [List.mem_cons, List.mem_singleton, List.mem_nil_iff, or_false, not_or] at hk
    obtain ⟨h1, h2, h3, h4, h5, h6, h7⟩ := hk
    rw [ColumnMap.get?_ite_set_ne _ _ _ _ _ h4,
      ColumnMap.get?_ite_set_ne _ _ _ _ _ h7,
      ColumnMap.get?_ite_set_ne _ _ _ _ _ h6,
      ColumnMap.get?_ite_set_ne _ _ _ _ _ h5,
      ColumnMap.get?_ite_set_ne _ _ _ _ _ h3,
      ColumnMap.get?_ite_set_ne _ _ _ _ _ h2,
      ColumnMap.get?_ite_set_ne _ _ _ _ _ h1, ColumnMap.get?_make]
  · repeat apply ColumnMap.keys_nodup_ite_set
    simp [ColumnMap.make]


/-- C13: for a nil product `ToUpdateProductModel` returns no map; for a non-nil
product `p` the map holds `name`, `description`, `sku`, `category_id` exactly
when that field of `p` is non-empty and `price`, `stock`, `image_url` exactly
when that field is present, each mapped to the field's value (a present zero
included); it holds no other key, and no key twice. -/
theorem update_column_map_is_partial (p : Product) :
    ToUpdateProductModel none = none ∧
    ∃ m, ToUpdateProductModel (some p) = some m ∧
      m.get? "name" = (if p.Name ≠ "" then some (Value.Str p.Name) else none) ∧
      m.get? "description"
        = (if p.Description ≠ "" then some (Value.Str p.Description) else none) ∧
      m.get? "sku" = (if p.SKU ≠ "" then some (Value.Str p.SKU) else none) ∧
      m.get? "category_id"
        = (if p.CategoryID ≠ "" then some (Value.Str p.CategoryID) else none) ∧
      m.get? "price" = (if p.Price ≠ none then some (Value.FloatPtr p.Price) else none) ∧
      m.get? "stock" = (if p.Stock ≠ none then some (Value.IntPtr p.Stock) else none) ∧
      m.get? "image_url"
        = (if p.ImageURL ≠ none then some (Value.StrPtr p.ImageURL) else none) ∧
      (p.Price = some 0 → m.get? "price" = some (Value.FloatPtr (some 0))) ∧
      (p.Stock = some 0 → m.get? "stock" = some (Value.IntPtr (some 0))) ∧
      (∀ k, k ∉ ["name", "description", "sku", "category_id", "price", "stock", "image_url"] →
        m.get? k = none) ∧
      m.get? "id" = none ∧ m.get? "created_at" = none ∧ m.get? "updated_at" = none ∧
      (m.entries.map Prod.fst).Nodup := by
  refine ⟨rfl, ?_⟩
  obtain ⟨m, hm, h1, h2, h3, h4, h5, h6, h7, hother, hnodup⟩ := ToUpdateProductModel_entries p
  refine ⟨m, hm, h1, h2, h3, h4, h5, h6, h7, ?_, ?_, hother, ?_, ?_, ?_, hnodup⟩
  · intro hp
    rw [h5, hp]
    rfl
  · intro hp
    rw [h6, hp]
    rfl
  · exact hother "id" (by decide)
  · exact hother "created_at" (by decide)
  · exact hother "updated_at" (by decide)

/-- Witness of C13: an update carrying a name, a price of 0 and nothing else. -/
theorem update_column_map_is_partial_witness :
    (ToUpdateProductModel (some { renamed with Price := some 0, Description := "" })).map
        (fun m => m.entries)
      = some [("name", Value.Str "Updated Product"), ("price", Value.FloatPtr (some 0))] ∧
    (ToUpdateProductModel none = none ∧
    ∃ m, ToUpdateProductModel (some phone) = some m ∧
      m.get? "name" = (if phone.Name ≠ "" then some (Value.Str phone.Name) else none) ∧
      m.get? "description"
        = (if phone.Description ≠ "" then some (Value.Str phone.Description) else none) ∧
      m.get? "sku" = (if phone.SKU ≠ "" then some (Value.Str phone.SKU) else none) ∧
      m.get? "category_id"
        = (if phone.CategoryID ≠ "" then some (Value.Str phone.CategoryID) else none) ∧
      m.get? "price" = (if phone.Price ≠ none then some (Value.FloatPtr phone.Price) else none) ∧
      m.get? "stock" = (if phone.Stock ≠ none then some (Value.IntPtr phone.Stock) else none) ∧
      m.get? "image_url"
        = (if phone.ImageURL ≠ none then some (Value.StrPtr phone.ImageURL) else none) ∧
      (phone.Price = some 0 → m.get? "price" = some (Value.FloatPtr (some 0))) ∧
      (phone.Stock = some 0 → m.get? "stock" = some (Value.IntPtr (some 0))) ∧
      (∀ k, k ∉ ["name", "description", "sku", "category_id", "price", "stock", "image_url"] →
        m.get? k = none) ∧
      m.get? "id" = none ∧ m.get? "created_at" = none ∧ m.get? "updated_at" = none ∧
      (m.entries.map Prod.fst).Nodup) :=
  ⟨by decide, update_column_map_is_partial phone⟩

/-- C14: in a product update request, a name, description, sku or categoryId
given as the empty string yields the same domain entity, hence the same column
map, as leaving that field out, and the column is not in the map. -/
theorem update_request_empty_string_is_omission (r : ProductUpdateRequest) :
    (({ r with Name := some "" }).ToDomain = ({ r with Name := none }).ToDomain ∧
      ToUpdateProductModel (some ({ r with Name := some "" }).ToDomain)
        = ToUpdateProductModel (some ({ r with Name := none }).ToDomain) ∧
      ∃ m, ToUpdateProductModel (some ({ r with Name := some "" }).ToDomain) = some m ∧
        m.get? "name" = none) ∧
    (({ r with Description := some "" }).ToDomain = ({ r with Description := none }).ToDomain ∧
      ToUpdateProductModel (some ({ r with Description := some "" }).ToDomain)
        = ToUpdateProductModel (some ({ r with Description := none }).ToDomain) ∧
      ∃ m, ToUpdateProductModel (some ({ r with Description := some "" }).ToDomain) = some m ∧
        m.get? "description" = none) ∧
    (({ r with SKU := some "" }).ToDomain = ({ r with SKU := none }).ToDomain ∧
      ToUpdateProductModel (some ({ r with SKU := some "" }).ToDomain)
        = ToUpdateProductModel (some ({ r with SKU := none }).ToDomain) ∧
      ∃ m, ToUpdateProductModel (some ({ r with SKU := some "" }).ToDomain) = some m ∧
        m.get? "sku" = none) ∧
    (({ r with CategoryID := some "" }).ToDomain = ({ r with CategoryID := none }).ToDomain ∧
      ToUpdateProductModel (some ({ r with CategoryID := some "" }).ToDomain)
        = ToUpdateProductModel (some ({ r with CategoryID := none }).ToDomain) ∧
      ∃ m, ToUpdateProductModel (some ({ r with CategoryID := some "" }).ToDomain) = some m ∧
        m.get? "category_id" = none) := by
  refine ⟨⟨rfl, rfl, ?_⟩, ⟨rfl, rfl, ?_⟩, ⟨rfl, rfl, ?_⟩, ⟨rfl, rfl, ?_⟩⟩
  · obtain ⟨m, hm, h1, _⟩ := ToUpdateProductModel_entries ({ r with Name := some "" }).ToDomain
    exact ⟨m, hm, by rw [h1]; rfl⟩
  · obtain ⟨m, hm, _, h2, _⟩ :=
      ToUpdateProductModel_entries ({ r with Description := some "" }).ToDomain
    exact ⟨m, hm, by rw [h2]; rfl⟩
  · obtain ⟨m, hm, _, _, h3, _⟩ := ToUpdateProductModel_entries ({ r with SKU := some "" }).ToDomain
    exact ⟨m, hm, by rw [h3]; rfl⟩
  · obtain ⟨m, hm, _, _, _, h4, _⟩ :=
      ToUpdateProductModel_entries ({ r with CategoryID := some "" }).ToDomain
    exact ⟨m, hm, by rw [h4]; rfl⟩

/-! ## Round trip through the persistence model -/

/-- A pointer sent through `GetValue` and back through `SetPtr` comes back
as it was unless it points at the zero value, which comes back nil. -/
theorem SetPtr_GetValue {T : Type} [ZeroValue T] [DecidableEq T] (p : Option T) :
    SetPtr (GetValue p) = if p = some ZeroValue.zero then none else p := by
  cases p with
  | none => simp [GetValue, SetPtr]
  | some v =>
    by_cases hv : v = ZeroValue.zero
    · simp [GetValue, SetPtr, hv]
    · simp [GetValue, SetPtr, hv]

/-- Counterexample to C15 as stated: a product with a present price of 0, a
present stock of 0 and a present empty image URL comes back from the stored
model with all three absent. -/
theorem roundtrip_drops_present_zero :
    ({ phone with Price := some 0, Stock := some 0, ImageURL := some "" } : Product).Price
      = some 0 ∧
    (ToProductEntity (ToProductModel
        (some { phone with Price := some 0, Stock := some 0, ImageURL := some "" }))).map
      (fun e => (e.Price, e.Stock, e.ImageURL)) = some (none, none, none) := by
  decide

/-- C15, as amended: converting a product entity to the stored model and back
returns an entity equal to it on id, name, description, sku and categoryId,
and on each of price, stock and imageUrl unless that field is present with the
zero value (0, 0, the empty string), in which case it comes back absent. -/
theorem roundtrip_preserves_supplied_fields (e : Product) :
    ∃ e2, ToProductEntity (ToProductModel (some e)) = some e2 ∧
      e2.ID = e.ID ∧ e2.Name = e.Name ∧ e2.Description = e.Description ∧
      e2.SKU = e.SKU ∧ e2.CategoryID = e.CategoryID ∧
      (e.Price ≠ some 0 → e2.Price = e.Price) ∧ (e.Price = some 0 → e2.Price = none) ∧
      (e.Stock ≠ some 0 → e2.Stock = e.Stock) ∧ (e.Stock = some 0 → e2.Stock = none) ∧
      (e.ImageURL ≠ some "" → e2.ImageURL = e.ImageURL) ∧
      (e.ImageURL = some "" → e2.ImageURL = none) := by
  refine ⟨_, rfl, rfl, rfl, rfl, rfl, rfl, ?_, ?_, ?_, ?_, ?_, ?_⟩
  · intro h
    show SetPtr (GetValue e.Price) = e.Price
    rw [SetPtr_GetValue]
    exact if_neg h
  · intro h
    show SetPtr (GetValue e.Price) = none
    rw [SetPtr_GetValue]
    exact if_pos h
  · intro h
    show SetPtr (GetValue e.Stock) = e.Stock
    rw [SetPtr_GetValue]
    exact if_neg h
  · intro h
    show SetPtr (GetValue e.Stock) = none
    rw [SetPtr_GetValue]
    exact if_pos h
  · intro h
    show SetPtr (GetValue e.ImageURL) = e.ImageURL
    rw [SetPtr_GetValue]
    exact if_neg h
  · intro h
    show SetPtr (GetValue e.ImageURL) = none
    rw [SetPtr_GetValue]
    exact if_pos h

/-- Witness of C15, as amended: the product `phone` (price 200, stock 5, no
image URL) comes back with every supplied field as it was. -/
theorem roundtrip_preserves_supplied_fields_witness :
    (ToProductEntity (ToProductModel (some phone))).map
        (fun e => (e.Price, e.Stock, e.ImageURL))
      = some (some 200, some 5, none) ∧
    (∃ e2, ToProductEntity (ToProductModel (some phone)) = some e2 ∧
      e2.ID = phone.ID ∧ e2.Name = phone.Name ∧ e2.Description = phone.Description ∧
      e2.SKU = phone.SKU ∧ e2.CategoryID = phone.CategoryID ∧
      (phone.Price ≠ some 0 → e2.Price = phone.Price) ∧
      (phone.Price = some 0 → e2.Price = none) ∧
      (phone.Stock ≠ some 0 → e2.Stock = phone.Stock) ∧
      (phone.Stock = some 0 → e2.Stock = none) ∧
      (phone.ImageURL ≠ some "" → e2.ImageURL = phone.ImageURL) ∧
      (phone.ImageURL = some "" → e2.ImageURL = none)) :=
  ⟨by decide, roundtrip_preserves_supplied_fields phone⟩

/-! ## Query conditions of product `FindAll` -/

/-- C16: on a handle obtained from `gorm.Open`, the query that
`productRepository.FindAll` builds with `BuildQuery` carries exactly the
conditions of the supplied predicates (combined by AND in the statement's
`Where` list) and no window yet; the statement it then executes has the same
conditions, the filter's limit and offset as its window, the table `products`
and the `Category` preload. -/
theorem findAll_builds_conjunction_of_supplied_predicates {σ : Type}
    (b : gorm.Backend σ) (ctx : Context) (filter : ProductFilter) (s : σ) :
    (BuildQuery (((gorm.Open b).WithContext ctx).Model ProductModel.zero.TableName)
        filter).Statement
      = { Context := some ctx, Table := some "products",
          Where := specProductConditions filter,
          Limit := none, Offset := none, Preloads := [] } ∧
    ((NewProductRepository (gorm.Open b).recorded).FindAll ctx filter (s, [])).2.2
      = [Exec.Find
          { Context := some ctx, Table := some "products",
            Where := specProductConditions filter,
            Limit := some filter.Limit, Offset := some filter.Offset,
            Preloads := ["Category"] }] := by
  have hq : ((((BuildQuery (((gorm.Open b).recorded.WithContext ctx).Model
        ProductModel.zero.TableName) filter).Limit filter.Limit).Offset filter.Offset).Preload
        "Category").finish (some ProductModel.zero.TableName) []
      = { Context := some ctx, Table := some "products",
            Where := specProductConditions filter,
            Limit := some filter.Limit, Offset := some filter.Offset,
            Preloads := ["Category"] } := by
    rcases filter with ⟨⟨limit, offset⟩, name, categoryID, minPrice, maxPrice⟩
    cases name <;> cases categoryID <;> cases minPrice <;> cases maxPrice <;> rfl
  have hpool : ((((BuildQuery (((gorm.Open b).recorded.WithContext ctx).Model
        ProductModel.zero.TableName) filter).Limit filter.Limit).Offset filter.Offset).Preload
        "Category").ConnPool = b.recorded := by
    rcases filter with ⟨⟨limit, offset⟩, name, categoryID, minPrice, maxPrice⟩
    cases name <;> cases categoryID <;> cases minPrice <;> cases maxPrice <;> rfl
  constructor
  · rcases filter with ⟨⟨limit, offset⟩, name, categoryID, minPrice, maxPrice⟩
    cases name <;> cases categoryID <;> cases minPrice <;> cases maxPrice <;> rfl
  · simp only [NewProductRepository, productRepository.FindAll]
    split
    · rename_i x err s1 heq
      have := congrArg (fun r => r.2.2) heq
      simp only [gorm.DB.FindProducts] at this
      rw [hq, hpool] at this
      exact this.symm
    · rename_i x rows s1 heq
      have := congrArg (fun r => r.2.2) heq
      simp only [gorm.DB.FindProducts] at this
      rw [hq, hpool] at this
      exact this.symm

/-- Why the handle matters: on a handle that is not initialised (here the
result of `WithContext`, before any chain method) and with no name predicate,
the three `Where` calls of `BuildQuery` whose result is not assigned leave
`query` as it was, and no condition is kept. `FindAll` never does this: it
calls `Model` first. -/
theorem BuildQuery_on_uninitialised_handle {σ : Type} (b : gorm.Backend σ) (ctx : Context)
    (limit offset : Int) (categoryID : String) (minPrice maxPrice : ℚ) :
    (BuildQuery ((gorm.Open b).WithContext ctx)
        { Limit := limit, Offset := offset, Name := none, CategoryID := some categoryID,
          MinPrice := some minPrice, MaxPrice := some maxPrice }).Statement.Where
      = [] := rfl

/-- Witness of C16: a filter with a name, a category and a maximum price but no
minimum price. -/
theorem findAll_builds_conjunction_of_supplied_predicates_witness :
    ((NewProductRepository (gorm.Open memBackend).recorded).FindAll background
        { Limit := 10, Offset := 20, Name := some "pho", CategoryID := some "c1",
          MinPrice := none, MaxPrice := some 500 } (memDB1, [])).2.2
      = [Exec.Find
          { Context := some background, Table := some "products",
            Where := [⟨"name ILIKE ?", [Value.Str "%pho%"]⟩,
              ⟨"category_id = ?", [Value.StrPtr (some "c1")]⟩,
              ⟨"price <= ?", [Value.FloatPtr (some 500)]⟩],
            Limit := some 10, Offset := some 20, Preloads := ["Category"] }] :=
  (findAll_builds_conjunction_of_supplied_predicates memBackend background
    { Limit := 10, Offset := 20, Name := some "pho", CategoryID := some "c1",
      MinPrice := none, MaxPrice := some 500 } memDB1).2

/-! ## Outcomes of the repositories -/

/-- C17: `FindByID` of either repository returns no entity and a `NotFound`
error exactly when the store's lookup fails with an error that is
`gorm.ErrRecordNotFound`, no entity and an `Internal` error exactly when it
fails with any other error, and the converted entity with no error when the
lookup succeeds; the store's error is kept as the cause. -/
theorem findByID_maps_store_outcome {σ : Type} (db : gorm.DB σ) (ctx : Context)
    (id : String) (s : σ) :
    ((∀ e, ((db.WithContext ctx).FirstCategory CategoryModel.zero "id = ?"
          [Value.Str id] s).1.2 = some e →
        (NewCategoryRepository db).FindByID ctx id s =
          ((none, some (if errors.Is e gorm.ErrRecordNotFound then ErrNotFound.Wrap e
              else ErrInternal.Wrap e)),
            ((db.WithContext ctx).FirstCategory CategoryModel.zero "id = ?"
              [Value.Str id] s).2)) ∧
     (((db.WithContext ctx).FirstCategory CategoryModel.zero "id = ?"
          [Value.Str id] s).1.2 = none →
        (NewCategoryRepository db).FindByID ctx id s =
          ((ToCategoryEntity (some ((db.WithContext ctx).FirstCategory CategoryModel.zero
              "id = ?" [Value.Str id] s).1.1), none),
            ((db.WithContext ctx).FirstCategory CategoryModel.zero "id = ?"
              [Value.Str id] s).2)) ∧
     ((∃ e2, ((NewCategoryRepository db).FindByID ctx id s).1.2 = some e2 ∧
          e2.Code? = some ErrNotFound.Code) ↔
        ∃ e, ((db.WithContext ctx).FirstCategory CategoryModel.zero "id = ?"
          [Value.Str id] s).1.2 = some e ∧ errors.Is e gorm.ErrRecordNotFound = true) ∧
     ((∃ e2, ((NewCategoryRepository db).FindByID ctx id s).1.2 = some e2 ∧
          e2.Code? = some ErrInternal.Code) ↔
        ∃ e, ((db.WithContext ctx).FirstCategory CategoryModel.zero "id = ?"
          [Value.Str id] s).1.2 = some e ∧ errors.Is e gorm.ErrRecordNotFound = false)) ∧
    ((∀ e, (((db.WithContext ctx).Preload "Category").FirstProduct ProductModel.zero "id = ?"
          [Value.Str id] s).1.2 = some e →
        (NewProductRepository db).FindByID ctx id s =
          ((none, some (if errors.Is e gorm.ErrRecordNotFound then ErrNotFound.Wrap e
              else ErrInternal.Wrap e)),
            (((db.WithContext ctx).Preload "Category").FirstProduct ProductModel.zero "id = ?"
              [Value.Str id] s).2)) ∧
     ((((db.WithContext ctx).Preload "Category").FirstProduct ProductModel.zero "id = ?"
          [Value.Str id] s).1.2 = none →
        (NewProductRepository db).FindByID ctx id s =
          ((ToProductEntity (some (((db.WithContext ctx).Preload "Category").FirstProduct
              ProductModel.zero "id = ?" [Value.Str id] s).1.1), none),
            (((db.WithContext ctx).Preload "Category").FirstProduct ProductModel.zero "id = ?"
              [Value.Str id] s).2)) ∧
     ((∃ e2, ((NewProductRepository db).FindByID ctx id s).1.2 = some e2 ∧
          e2.Code? = some ErrNotFound.Code) ↔
        ∃ e, (((db.WithContext ctx).Preload "Category").FirstProduct ProductModel.zero "id = ?"
          [Value.Str id] s).1.2 = some e ∧ errors.Is e gorm.ErrRecordNotFound = true) ∧
     ((∃ e2, ((NewProductRepository db).FindByID ctx id s).1.2 = some e2 ∧
          e2.Code? = some ErrInternal.Code) ↔
        ∃ e, (((db.WithContext ctx).Preload "Category").FirstProduct ProductModel.zero "id = ?"
          [Value.Str id] s).1.2 = some e ∧ errors.Is e gorm.ErrRecordNotFound = false)) := by
  constructor
  · simp only [NewCategoryRepository, categoryRepository.FindByID]
    rcases (db.WithContext ctx).FirstCategory CategoryModel.zero "id = ?" [Value.Str id] s
      with ⟨⟨m, _ | err⟩, s1⟩
    · refine ⟨?_, ?_, ?_, ?_⟩
      · intro e he
        simp at he
      · intro _
        rfl
      · simp
      · simp
    · refine ⟨?_, ?_, ?_, ?_⟩
      · intro e he
        simp only [Option.some.injEq] at he
        subst he
        by_cases h : errors.Is err gorm.ErrRecordNotFound = true
        · simp [h]
        · simp [h]
      · intro h
        simp at h
      · by_cases h : errors.Is err gorm.ErrRecordNotFound = true
        · simp [h, ErrNotFound, AppError.Wrap, Error.Code?]
        · simp [h, ErrNotFound, ErrInternal, AppError.Wrap, Error.Code?]
      · by_cases h : errors.Is err gorm.ErrRecordNotFound = true
        · simp [h, ErrNotFound, ErrInternal, AppError.Wrap, Error.Code?]
        · simp [h, ErrInternal, AppError.Wrap, Error.Code?]
  · simp only [NewProductRepository, productRepository.FindByID]
    rcases ((db.WithContext ctx).Preload "Category").FirstProduct ProductModel.zero "id = ?"
        [Value.Str id] s
      with ⟨⟨m, _ | err⟩, s1⟩
    · refine ⟨?_, ?_, ?_, ?_⟩
      · intro e he
        simp at he
      · intro _
        rfl
      · simp
      · simp
    · refine ⟨?_, ?_, ?_, ?_⟩
      · intro e he
        simp only [Option.some.injEq] at he
        subst he
        by_cases h : errors.Is err gorm.ErrRecordNotFound = true
        · simp [h]
        · simp [h]
      · intro h
        simp at h
      · by_cases h : errors.Is err gorm.ErrRecordNotFound = true
        · simp [h, ErrNotFound, AppError.Wrap, Error.Code?]
        · simp [h, ErrNotFound, ErrInternal, AppError.Wrap, Error.Code?]
      · by_cases h : errors.Is err gorm.ErrRecordNotFound = true
        · simp [h, ErrNotFound, ErrInternal, AppError.Wrap, Error.Code?]
        · simp [h, ErrInternal, AppError.Wrap, Error.Code?]

/-- Witness of C17 on the in-memory database: an id with no row gives
`NotFound`, the id `p1` gives the product with its category attached, and a
database whose lookup fails with another error gives `Internal`. -/
theorem findByID_maps_store_outcome_witness :
    (NewCategoryRepository (gorm.Open memBackend)).FindByID background "missing" memDB1
      = ((none, some (ErrNotFound.Wrap gorm.ErrRecordNotFound)), memDB1) ∧
    ((NewProductRepository (gorm.Open memBackend)).FindByID background "p1" memDB1).1
      = (some
          { phone with
            CreatedAt := 2, UpdatedAt := 2, ImageURL := none,
            Category := some ⟨"c1", "Electronics", 1, 1⟩ }, none) ∧
    (NewCategoryRepository (gorm.Open (brokenBackend (Error.New "connection refused")))).FindByID
        background "c1" memDB1
      = ((none, some (ErrInternal.Wrap (Error.New "connection refused"))), memDB1) :=
  ⟨(findByID_maps_store_outcome (gorm.Open memBackend) background "missing" memDB1).1.1
      gorm.ErrRecordNotFound rfl,
   congrArg Prod.fst
     ((findByID_maps_store_outcome (gorm.Open memBackend) background "p1" memDB1).2.2.1 rfl),
   (findByID_maps_store_outcome (gorm.Open (brokenBackend (Error.New "connection refused")))
      background "c1" memDB1).1.1 (Error.New "connection refused") rfl⟩

/-- C18: `Create` of either repository, given a nil entity, returns the empty id
with an `InvalidArgument` error and makes no call to the database; given a
non-nil entity it returns the empty id with an `Internal` error wrapping the
store's error when the store fails, and the id of the created model when the
store succeeds. -/
theorem create_maps_store_outcome {σ : Type} (db : gorm.DB σ) (ctx : Context)
    (category : Category) (product : Product) (s : σ) :
    ((NewCategoryRepository db.recorded).Create ctx none (s, [])
        = (("", some (ErrInvalidArgument.WithMessage "category cannot be nil")), (s, [])) ∧
      (NewProductRepository db.recorded).Create ctx none (s, [])
        = (("", some (ErrInvalidArgument.WithMessage "product cannot be nil")), (s, []))) ∧
    ((∀ e, ((db.WithContext ctx).CreateCategory
          { CategoryModel.zero with ID := category.ID, Name := category.Name } s).1.2 = some e →
        (NewCategoryRepository db).Create ctx (some category) s =
          (("", some (ErrInternal.Wrap e)),
            ((db.WithContext ctx).CreateCategory
              { CategoryModel.zero with ID := category.ID, Name := category.Name } s).2)) ∧
     (((db.WithContext ctx).CreateCategory
          { CategoryModel.zero with ID := category.ID, Name := category.Name } s).1.2 = none →
        (NewCategoryRepository db).Create ctx (some category) s =
          ((((db.WithContext ctx).CreateCategory
              { CategoryModel.zero with ID := category.ID, Name := category.Name } s).1.1.ID, none),
            ((db.WithContext ctx).CreateCategory
              { CategoryModel.zero with ID := category.ID, Name := category.Name } s).2))) ∧
    ((∀ e, ((db.WithContext ctx).CreateProduct
          ((ToProductModel (some product)).getD ProductModel.zero) s).1.2 = some e →
        (NewProductRepository db).Create ctx (some product) s =
          (("", some (ErrInternal.Wrap e)),
            ((db.WithContext ctx).CreateProduct
              ((ToProductModel (some product)).getD ProductModel.zero) s).2)) ∧
     (((db.WithContext ctx).CreateProduct
          ((ToProductModel (some product)).getD ProductModel.zero) s).1.2 = none →
        (NewProductRepository db).Create ctx (some product) s =
          ((((db.WithContext ctx).CreateProduct
              ((ToProductModel (some product)).getD ProductModel.zero) s).1.1.ID, none),
            ((db.WithContext ctx).CreateProduct
              ((ToProductModel (some product)).getD ProductModel.zero) s).2))) := by
  refine ⟨⟨rfl, rfl⟩, ?_, ?_⟩
  · simp only [NewCategoryRepository, categoryRepository.Create, ToCategoryModel]
    rcases (db.WithContext ctx).CreateCategory
        { CategoryModel.zero with ID := category.ID, Name := category.Name } s
      with ⟨⟨m, _ | err⟩, s1⟩
    · exact ⟨fun e he => by simp at he, fun _ => rfl⟩
    · refine ⟨fun e he => ?_, fun h => by simp at h⟩
      simp only [Option.some.injEq] at he
      subst he
      rfl
  · simp only [NewProductRepository, productRepository.Create]
    rcases (db.WithContext ctx).CreateProduct
        ((ToProductModel (some product)).getD ProductModel.zero) s
      with ⟨⟨m, _ | err⟩, s1⟩
    · exact ⟨fun e he => by simp at he, fun _ => rfl⟩
    · refine ⟨fun e he => ?_, fun h => by simp at h⟩
      simp only [Option.some.injEq] at he
      subst he
      rfl

/-- Witness of C18: on the in-memory database the product `phone` is created
under its id `p1`; on a failing database the category creation reports
`Internal`. -/
theorem create_maps_store_outcome_witness :
    ((NewProductRepository (gorm.Open memBackend)).Create background (some phone) memDB1).1
      = ("p1", none) ∧
    ((NewCategoryRepository (gorm.Open (brokenBackend (Error.New "connection refused")))).Create
        background (some { ID := "", Name := "Audio", CreatedAt := 0, UpdatedAt := 0 }) memDB1).1
      = ("", some (ErrInternal.Wrap (Error.New "connection refused"))) :=
  ⟨congrArg Prod.fst
     ((create_maps_store_outcome (gorm.Open memBackend) background
        { ID := "", Name := "Audio", CreatedAt := 0, UpdatedAt := 0 } phone memDB1).2.2.2 rfl),
   congrArg Prod.fst
     ((create_maps_store_outcome (gorm.Open (brokenBackend (Error.New "connection refused")))
        background { ID := "", Name := "Audio", CreatedAt := 0, UpdatedAt := 0 } phone
        memDB1).2.1.1 (Error.New "connection refused") rfl)⟩

/-- C19: `Delete` of either repository returns an error exactly when the
store's delete reports one, and then it is an `Internal` error wrapping the
store's error, never a `NotFound` one; when the store reports no error, as it
does for an id that matches no row, `Delete` returns none. -/
theorem delete_maps_store_outcome {σ : Type} (db : gorm.DB σ) (ctx : Context)
    (id : String) (s : σ) :
    ((NewCategoryRepository db).Delete ctx id s =
        ((((db.WithContext ctx).Delete CategoryModel.zero.TableName "id = ?"
            [Value.Str id] s).1).map ErrInternal.Wrap,
          ((db.WithContext ctx).Delete CategoryModel.zero.TableName "id = ?"
            [Value.Str id] s).2) ∧
      ∀ e2, ((NewCategoryRepository db).Delete ctx id s).1 = some e2 →
        e2.Code? = some ErrInternal.Code ∧ e2.Code? ≠ some ErrNotFound.Code) ∧
    ((NewProductRepository db).Delete ctx id s =
        ((((db.WithContext ctx).Delete CategoryModel.zero.TableName "id = ?"
            [Value.Str id] s).1).map ErrInternal.Wrap,
          ((db.WithContext ctx).Delete CategoryModel.zero.TableName "id = ?"
            [Value.Str id] s).2) ∧
      ∀ e2, ((NewProductRepository db).Delete ctx id s).1 = some e2 →
        e2.Code? = some ErrInternal.Code ∧ e2.Code? ≠ some ErrNotFound.Code) := by
  constructor
  · simp only [NewCategoryRepository, categoryRepository.Delete]
    rcases (db.WithContext ctx).Delete CategoryModel.zero.TableName "id = ?" [Value.Str id] s
      with ⟨_ | err, s1⟩
    · exact ⟨rfl, fun e2 h => by simp at h⟩
    · refine ⟨rfl, fun e2 h => ?_⟩
      simp only [Option.some.injEq] at h
      subst h
      exact ⟨rfl, by simp [AppError.Wrap, Error.Code?, ErrInternal, ErrNotFound]⟩
  · simp only [NewProductRepository, productRepository.Delete]
    rcases (db.WithContext ctx).Delete CategoryModel.zero.TableName "id = ?" [Value.Str id] s
      with ⟨_ | err, s1⟩
    · exact ⟨rfl, fun e2 h => by simp at h⟩
    · refine ⟨rfl, fun e2 h => ?_⟩
      simp only [Option.some.injEq] at h
      subst h
      exact ⟨rfl, by simp [AppError.Wrap, Error.Code?, ErrInternal, ErrNotFound]⟩

/-- Witness of C19: deleting an id that has no row in the in-memory database
succeeds, and a delete that fails in the store, even with
`gorm.ErrRecordNotFound`, is reported as `Internal`. -/
theorem delete_maps_store_outcome_witness :
    ((NewCategoryRepository (gorm.Open memBackend)).Delete background "missing" memDB1).1
      = none ∧
    ((NewProductRepository (gorm.Open (brokenBackend gorm.ErrRecordNotFound))).Delete
        background "p1" memDB1).1
      = some (ErrInternal.Wrap gorm.ErrRecordNotFound) :=
  ⟨congrArg Prod.fst
     (delete_maps_store_outcome (gorm.Open memBackend) background "missing" memDB1).1.1,
   congrArg Prod.fst
     (delete_maps_store_outcome (gorm.Open (brokenBackend gorm.ErrRecordNotFound))
        background "p1" memDB1).2.1⟩

/-- C20, evaluated: deleting the product `p1` through the product service on
the in-memory database reports success, but the one statement that reaches the
database is a delete on the table `categories`, and the product row `p1` is
still in the table `products` afterwards. -/
theorem product_delete_runs_on_categories_table :
    ((NewProductService (NewProductRepository (gorm.Open memBackend).recorded)
        (NewCategoryRepository (gorm.Open memBackend).recorded)).Delete background "p1"
        (memDB1, [])).1 = none ∧
    ((NewProductService (NewProductRepository (gorm.Open memBackend).recorded)
        (NewCategoryRepository (gorm.Open memBackend).recorded)).Delete background "p1"
        (memDB1, [])).2.2
      = [Exec.Delete
          { Context := some background, Table := some "categories",
            Where := [⟨"id = ?", [Value.Str "p1"]⟩], Limit := none, Offset := none,
            Preloads := [] }] ∧
    (((NewProductService (NewProductRepository (gorm.Open memBackend).recorded)
        (NewCategoryRepository (gorm.Open memBackend).recorded)).Delete background "p1"
        (memDB1, [])).2.1.products.map (fun m => m.ID)) = ["p1"] ∧
    ProductModel.zero.TableName = "products" := by
  decide

/-! ## Error propagation through the services -/

/-- C11: every service operation returns the error of the repository call it
delegates to, unchanged: `Create`, `Update`, `GetByID`, `GetAll` and `Delete`
of the category service; for the product service the error of the category
lookup made by `Create` and `Update`, and otherwise the error of the product
repository's `Create`, `Update`, `FindByID`, `FindAll` (when no range check
fails) and `Delete`. -/
theorem services_return_repository_error_unchanged {σ : Type}
    (cr : CategoryRepository σ) (pr : ProductRepository σ) (ctx : Context)
    (id : String) (category : Category) (product : Product)
    (cf : CategoriesFilter) (pf : ProductFilter) (s : σ) :
    (((NewCategoryService cr).Create ctx category s).1.2
        = (cr.Create ctx (some category) s).1.2 ∧
      ((NewCategoryService cr).Update ctx id category s).1
        = (cr.Update ctx (some { category with ID := id }) s).1 ∧
      ((NewCategoryService cr).GetByID ctx id s).1.2 = (cr.FindByID ctx id s).1.2 ∧
      (∃ g, ((recordedCategoryService cr).GetAll ctx cf (s, [])).2.2
          = [Call.CategoryFindAll ctx g] ∧
        ((recordedCategoryService cr).GetAll ctx cf (s, [])).1.2 = (cr.FindAll ctx g s).1.2) ∧
      ((NewCategoryService cr).Delete ctx id s).1 = (cr.Delete ctx id s).1) ∧
    ((∀ e, (cr.FindByID ctx product.CategoryID s).1.2 = some e →
        ((NewProductService pr cr).Create ctx product s).1.2 = some e) ∧
      ((cr.FindByID ctx product.CategoryID s).1.2 = none →
        ((NewProductService pr cr).Create ctx product s).1.2
          = (pr.Create ctx (some product) (cr.FindByID ctx product.CategoryID s).2).1.2) ∧
      (product.CategoryID ≠ "" → ∀ e, (cr.FindByID ctx product.CategoryID s).1.2 = some e →
        ((NewProductService pr cr).Update ctx id product s).1 = some e) ∧
      (product.CategoryID ≠ "" → (cr.FindByID ctx product.CategoryID s).1.2 = none →
        ((NewProductService pr cr).Update ctx id product s).1
          = (pr.Update ctx (some { product with ID := id })
              (cr.FindByID ctx product.CategoryID s).2).1) ∧
      (product.CategoryID = "" →
        ((NewProductService pr cr).Update ctx id product s).1
          = (pr.Update ctx (some { product with ID := id }) s).1) ∧
      ((NewProductService pr cr).GetByID ctx id s).1.2 = (pr.FindByID ctx id s).1.2 ∧
      ((¬ ∃ a b, pf.MinPrice = some a ∧ pf.MaxPrice = some b ∧ a > b) →
        ∃ g, ((recordedProductService pr cr).GetAll ctx pf (s, [])).2.2
            = [Call.ProductFindAll ctx g] ∧
          ((recordedProductService pr cr).GetAll ctx pf (s, [])).1.2
            = (pr.FindAll ctx g s).1.2) ∧
      ((NewProductService pr cr).Delete ctx id s).1 = (pr.Delete ctx id s).1) := by
  refine ⟨⟨?_, rfl, rfl, ⟨_, rfl, rfl⟩, rfl⟩, ?_, ?_, ?_, ?_, ?_, rfl, ?_, rfl⟩
  · simp only [NewCategoryService, categoryService.Create]
    rcases cr.Create ctx (some category) s with ⟨⟨i, _ | e⟩, s1⟩ <;> rfl
  · intro e he
    simp only [NewProductService, productService.Create, productService.validateCategory]
    rcases hf : cr.FindByID ctx product.CategoryID s with ⟨⟨c, _ | e2⟩, s1⟩
    · rw [hf] at he
      simp at he
    · rw [hf] at he
      simp only [Option.some.injEq] at he
      subst he
      rfl
  · intro he
    simp only [NewProductService, productService.Create, productService.validateCategory]
    rcases hf : cr.FindByID ctx product.CategoryID s with ⟨⟨c, _ | e2⟩, s1⟩
    · simp only []
      rcases pr.Create ctx (some product) s1 with ⟨⟨i, _ | e3⟩, s2⟩ <;> rfl
    · rw [hf] at he
      simp at he
  · intro hne e he
    simp only [NewProductService, productService.Update, productService.validateCategory,
      hne, ne_eq, not_false_eq_true, if_true]
    rcases hf : cr.FindByID ctx product.CategoryID s with ⟨⟨c, _ | e2⟩, s1⟩
    · rw [hf] at he
      simp at he
    · rw [hf] at he
      simp only [Option.some.injEq] at he
      subst he
      rfl
  · intro hne he
    simp only [NewProductService, productService.Update, productService.validateCategory,
      hne, ne_eq, not_false_eq_true, if_true]
    rcases hf : cr.FindByID ctx product.CategoryID s with ⟨⟨c, _ | e2⟩, s1⟩
    · rfl
    · rw [hf] at he
      simp at he
  · intro hempty
    simp only [NewProductService, productService.Update, hempty, ne_eq, not_true_eq_false,
      if_false]
  · intro hne
    obtain ⟨g, _, _, hrun⟩ := recorded_GetAll_of_not_inverted cr pr ctx pf s hne
    exact ⟨g, by rw [hrun], by rw [hrun]⟩

/-- Witness of C11: a product repository that fails with `repository error`
makes product `Create`, `GetByID` and `Delete` return exactly that error. -/
theorem services_return_repository_error_unchanged_witness :
    ((NewProductService (failingProductRepository (Error.New "repository error"))
        memCategoryRepository).Create background phone store1).1.2
      = some (Error.New "repository error") ∧
    ((NewProductService (failingProductRepository (Error.New "repository error"))
        memCategoryRepository).GetByID background "p1" store1).1.2
      = some (Error.New "repository error") ∧
    ((NewProductService (failingProductRepository (Error.New "repository error"))
        memCategoryRepository).Delete background "p1" store1).1
      = some (Error.New "repository error") :=
  ⟨(services_return_repository_error_unchanged memCategoryRepository
      (failingProductRepository (Error.New "repository error")) background "p1"
      ⟨"c1", "Electronics", 0, 0⟩ phone (categoryFilterWithLimit 20)
      (productFilterWith 20 none none) store1).2.2.1 rfl,
   (services_return_repository_error_unchanged memCategoryRepository
      (failingProductRepository (Error.New "repository error")) background "p1"
      ⟨"c1", "Electronics", 0, 0⟩ phone (categoryFilterWithLimit 20)
      (productFilterWith 20 none none) store1).2.2.2.2.2.2.1,
   (services_return_repository_error_unchanged memCategoryRepository
      (failingProductRepository (Error.New "repository error")) background "p1"
      ⟨"c1", "Electronics", 0, 0⟩ phone (categoryFilterWithLimit 20)
      (productFilterWith 20 none none) store1).2.2.2.2.2.2.2.2⟩

/-- The category repository's `Create` returns an id without an error, or the
empty id with an error. -/
theorem NewCategoryRepository_Create_shape {σ : Type} (db : gorm.DB σ) (ctx : Context)
    (category : Option Category) (s : σ) :
    (∃ id, ((NewCategoryRepository db).Create ctx category s).1 = (id, none)) ∨
    (∃ e, ((NewCategoryRepository db).Create ctx category s).1 = ("", some e)) := by
  simp only [NewCategoryRepository, categoryRepository.Create]
  cases category with
  | none => exact Or.inr ⟨_, rfl⟩
  | some c =>
    simp only [ToCategoryModel]
    split
    · exact Or.inr ⟨_, rfl⟩
    · exact Or.inl ⟨_, rfl⟩

/-- The category repository's `FindByID` returns no entity with an error. -/
theorem NewCategoryRepository_FindByID_no_partial {σ : Type} (db : gorm.DB σ)
    (ctx : Context) (id : String) (s : σ) :
    ((NewCategoryRepository db).FindByID ctx id s).1.2 ≠ none →
      ((NewCategoryRepository db).FindByID ctx id s).1.1 = none := by
  simp only [NewCategoryRepository, categoryRepository.FindByID]
  split
  · split <;> intro _ <;> rfl
  · intro h
    exact absurd rfl h

/-- The category repository's `FindAll` returns no list with an error. -/
theorem NewCategoryRepository_FindAll_no_partial {σ : Type} (db : gorm.DB σ)
    (ctx : Context) (cf : CategoriesFilter) (s : σ) :
    ((NewCategoryRepository db).FindAll ctx cf s).1.2 ≠ none →
      ((NewCategoryRepository db).FindAll ctx cf s).1.1 = none := by
  simp only [NewCategoryRepository, categoryRepository.FindAll]
  split
  · intro _
    rfl
  · intro h
    exact absurd rfl h

/-- The product repository's `FindByID` returns no entity with an error. -/
theorem NewProductRepository_FindByID_no_partial {σ : Type} (db : gorm.DB σ)
    (ctx : Context) (id : String) (s : σ) :
    ((NewProductRepository db).FindByID ctx id s).1.2 ≠ none →
      ((NewProductRepository db).FindByID ctx id s).1.1 = none := by
  simp only [NewProductRepository, productRepository.FindByID]
  split
  · split <;> intro _ <;> rfl
  · intro h
    exact absurd rfl h

/-- The product repository's `FindAll` returns no list with an error. -/
theorem NewProductRepository_FindAll_no_partial {σ : Type} (db : gorm.DB σ)
    (ctx : Context) (pf : ProductFilter) (s : σ) :
    ((NewProductRepository db).FindAll ctx pf s).1.2 ≠ none →
      ((NewProductRepository db).FindAll ctx pf s).1.1 = none := by
  simp only [NewProductRepository, productRepository.FindAll]
  split
  · intro _
    rfl
  · intro h
    exact absurd rfl h

/-- C12: whenever an operation of the category service or of the product
service returns an error, the accompanying result is empty: `Create` returns
the empty id, `GetByID` returns no entity and `GetAll` returns no list. The
services are the ones of this program, built on `categoryRepository` and
`productRepository` over any database handle. -/
theorem no_partial_result_with_error {σ : Type}
    (db : gorm.DB σ) (ctx : Context)
    (id : String) (category : Category) (product : Product)
    (cf : CategoriesFilter) (pf : ProductFilter) (s : σ) :
    (((NewCategoryService (NewCategoryRepository db)).Create ctx category s).1.2 ≠ none →
      ((NewCategoryService (NewCategoryRepository db)).Create ctx category s).1.1 = "") ∧
    (((NewProductService (NewProductRepository db) (NewCategoryRepository db)).Create
        ctx product s).1.2 ≠ none →
      ((NewProductService (NewProductRepository db) (NewCategoryRepository db)).Create
        ctx product s).1.1 = "") ∧
    (((NewCategoryService (NewCategoryRepository db)).GetByID ctx id s).1.2 ≠ none →
      ((NewCategoryService (NewCategoryRepository db)).GetByID ctx id s).1.1 = none) ∧
    (((NewProductService (NewProductRepository db) (NewCategoryRepository db)).GetByID
        ctx id s).1.2 ≠ none →
      ((NewProductService (NewProductRepository db) (NewCategoryRepository db)).GetByID
        ctx id s).1.1 = none) ∧
    (((NewCategoryService (NewCategoryRepository db)).GetAll ctx cf s).1.2 ≠ none →
      ((NewCategoryService (NewCategoryRepository db)).GetAll ctx cf s).1.1 = none) ∧
    (((NewProductService (NewProductRepository db) (NewCategoryRepository db)).GetAll
        ctx pf s).1.2 ≠ none →
      ((NewProductService (NewProductRepository db) (NewCategoryRepository db)).GetAll
        ctx pf s).1.1 = none) := by
  refine ⟨?_, ?_, ?_, ?_, ?_, ?_⟩
  · simp only [NewCategoryService, categoryService.Create]
    rcases (NewCategoryRepository db).Create ctx (some category) s with ⟨⟨i, _ | e⟩, s1⟩
    · intro h
      exact absurd rfl h
    · intro _
      rfl
  · simp only [NewProductService, productService.Create, productService.validateCategory]
    rcases (NewCategoryRepository db).FindByID ctx product.CategoryID s
      with ⟨⟨c, _ | e2⟩, s1⟩
    · simp only []
      rcases (NewProductRepository db).Create ctx (some product) s1 with ⟨⟨i, _ | e3⟩, s2⟩
      · intro h
        exact absurd rfl h
      · intro _
        rfl
    · intro _
      rfl
  · exact NewCategoryRepository_FindByID_no_partial db ctx id s
  · exact NewProductRepository_FindByID_no_partial db ctx id s
  · exact NewCategoryRepository_FindAll_no_partial db ctx _ s
  · obtain ⟨g, _, _, hrun⟩ := productService_GetAll_eq
      (NewProductService (NewProductRepository db) (NewCategoryRepository db)) ctx pf s
    rw [hrun]
    split
    · split
      · intro _
        rfl
      · exact NewProductRepository_FindAll_no_partial db ctx g s
    · exact NewProductRepository_FindAll_no_partial db ctx g s

/-- Witness of C12: on the in-memory database, product `Create` for a product
in a missing category returns the empty id with the error, and category
`GetByID` returns no entity for an id that has no row. -/
theorem no_partial_result_with_error_witness :
    ((NewProductService (NewProductRepository (gorm.Open memBackend))
        (NewCategoryRepository (gorm.Open memBackend))).Create background orphan memDB1).1
      = ("", some (ErrNotFound.Wrap gorm.ErrRecordNotFound)) ∧
    ((NewCategoryService (NewCategoryRepository (gorm.Open memBackend))).GetByID
        background "missing" memDB1).1
      = (none, some (ErrNotFound.Wrap gorm.ErrRecordNotFound)) :=
  ⟨Prod.ext
     ((no_partial_result_with_error (gorm.Open memBackend) background "missing"
        ⟨"c1", "Electronics", 0, 0⟩ orphan (categoryFilterWithLimit 20)
        (productFilterWith 20 none none) memDB1).2.1 (by decide))
     rfl,
   Prod.ext
     ((no_partial_result_with_error (gorm.Open memBackend) background "missing"
        ⟨"c1", "Electronics", 0, 0⟩ orphan (categoryFilterWithLimit 20)
        (productFilterWith 20 none none) memDB1).2.2.1 (by decide))
     rfl⟩

/-! ## Transport: status mapping and conversions -/

/-- C21: `mapErrorToHTTPStatus` returns 404 for the `NotFound` code, 400 for
the `InvalidArgument` code and 500 for every other code, the `Internal` code
included. -/
theorem mapErrorToHTTPStatus_three_way (code : String) :
    (code = ErrNotFound.Code → mapErrorToHTTPStatus code = 404) ∧
    (code = ErrInvalidArgument.Code → mapErrorToHTTPStatus code = 400) ∧
    (code ≠ ErrNotFound.Code → code ≠ ErrInvalidArgument.Code →
      mapErrorToHTTPStatus code = 500) ∧
    mapErrorToHTTPStatus ErrInternal.Code = 500 ∧
    ((mapErrorToHTTPStatus code = 404 ↔ code = ErrNotFound.Code) ∧
      (mapErrorToHTTPStatus code = 400 ↔ code = ErrInvalidArgument.Code)) := by
  have hne : ErrInvalidArgument.Code ≠ ErrNotFound.Code := by decide
  unfold mapErrorToHTTPStatus http.StatusNotFound http.StatusBadRequest
    http.StatusInternalServerError
  refine ⟨?_, ?_, ?_, by decide, ?_, ?_⟩
  · intro h
    rw [if_pos h]
  · intro h
    rw [if_neg (by rw [h]; exact hne), if_pos h]
  · intro h1 h2
    rw [if_neg h1, if_neg h2]
  · split_ifs with h1 h2
    · simp [h1]
    · simp [h1]
    · simp [h1]
  · split_ifs with h1 h2
    · have h3 : code ≠ ErrInvalidArgument.Code := by
        rw [h1]
        exact Ne.symm hne
      simp [h3]
    · simp [h2]
    · simp [h2]

/-- Witness of C21: a code that is none of the three kinds maps to 500. -/
theorem mapErrorToHTTPStatus_three_way_witness :
    mapErrorToHTTPStatus "TEAPOT" = 500 :=
  (mapErrorToHTTPStatus_three_way "TEAPOT").2.2.1 (by decide) (by decide)

/-- C22: given a non-empty generated identifier, the `BeforeCreate` hook of a
category or product model reports no error, sets the generated identifier when
the id is empty, keeps a non-empty id, changes no other field, and leaves the
id non-empty. -/
theorem beforeCreate_assigns_id_when_empty (c : CategoryModel) (p : ProductModel)
    (generated : String) (h : generated ≠ "") :
    ((c.BeforeCreate generated).2 = none ∧
      (c.ID = "" → (c.BeforeCreate generated).1.ID = generated) ∧
      (c.ID ≠ "" → (c.BeforeCreate generated).1.ID = c.ID) ∧
      (c.BeforeCreate generated).1 = { c with ID := (c.BeforeCreate generated).1.ID } ∧
      (c.BeforeCreate generated).1.ID ≠ "") ∧
    ((p.BeforeCreate generated).2 = none ∧
      (p.ID = "" → (p.BeforeCreate generated).1.ID = generated) ∧
      (p.ID ≠ "" → (p.BeforeCreate generated).1.ID = p.ID) ∧
      (p.BeforeCreate generated).1 = { p with ID := (p.BeforeCreate generated).1.ID } ∧
      (p.BeforeCreate generated).1.ID ≠ "") := by
  constructor
  · by_cases hc : c.ID = ""
    · simp [CategoryModel.BeforeCreate, hc, h]
    · simp [CategoryModel.BeforeCreate, hc]
  · cases p
    rename_i ID _ _ _ _ _ _ _ _ _ _ _
    by_cases hp : ID = ""
    · simp [ProductModel.BeforeCreate, hp, h]
    · simp [ProductModel.BeforeCreate, hp]

/-- Witness of C22: an empty id is replaced by the generated text, a given id
is kept. -/
theorem beforeCreate_assigns_id_when_empty_witness :
    "3f0c" ≠ "" ∧ (CategoryModel.zero.BeforeCreate "3f0c").1.ID = "3f0c" ∧
      (phoneRow.BeforeCreate "3f0c").1.ID = "p1" :=
  ⟨by decide,
   (beforeCreate_assigns_id_when_empty CategoryModel.zero phoneRow "3f0c" (by decide)).1.2.1 rfl,
   (beforeCreate_assigns_id_when_empty CategoryModel.zero phoneRow "3f0c" (by decide)).2.2.2.1
     (by decide)⟩

/-- Reading back a value that `SetPtr` has wrapped gives the value. -/
theorem GetValue_SetPtr {T : Type} [ZeroValue T] [DecidableEq T] (v : T) :
    GetValue (SetPtr v) = v := by
  unfold SetPtr
  split_ifs with h
  · exact h.symm
  · rfl

/-- Each product converts to a response element with its id and name. -/
theorem productFromDomain_some (u : Product) :
    ∃ r, productdto.ProductFromDomain (some u) = some r ∧ r.ID = u.ID ∧ r.Name = u.Name :=
  ⟨_, rfl, rfl, rfl⟩

/-- C24: for a non-empty list of categories `CategoriesFromDomain` returns a
list of the same length whose i-th element carries the id and name of the i-th
category; `ProductsFromDomain` does so for every list of products. -/
theorem fromDomain_preserves_length_and_order (cs : List Category) (ps : List Product)
    (hcs : cs ≠ []) :
    (∃ rs, categorydto.CategoriesFromDomain (some cs) = some rs ∧ rs.length = cs.length ∧
      ∀ i (hi : i < cs.length), ∃ r, rs[i]? = some (some r) ∧
        r.ID = (cs.get ⟨i, hi⟩).ID ∧ r.Name = (cs.get ⟨i, hi⟩).Name) ∧
    (∃ rs, productdto.ProductsFromDomain (some ps) = some rs ∧ rs.length = ps.length ∧
      ∀ i (hi : i < ps.length), ∃ r, rs[i]? = some r ∧
        r.ID = (ps.get ⟨i, hi⟩).ID ∧ r.Name = (ps.get ⟨i, hi⟩).Name) := by
  constructor
  · refine ⟨cs.map (fun c => categorydto.CategoryFromDomain (some c)), ?_, by simp, ?_⟩
    · simp [categorydto.CategoriesFromDomain, hcs]
    · intro i hi
      refine ⟨⟨(cs.get ⟨i, hi⟩).ID, (cs.get ⟨i, hi⟩).Name, (cs.get ⟨i, hi⟩).CreatedAt,
        (cs.get ⟨i, hi⟩).UpdatedAt⟩, ?_, rfl, rfl⟩
      simp [List.getElem?_map, List.getElem?_eq_getElem hi, categorydto.CategoryFromDomain]
  · choose g hg using productFromDomain_some
    have hf : (fun user => productdto.ProductFromDomain (some user)) = some ∘ g :=
      funext fun u => (hg u).1
    refine ⟨ps.map g, ?_, by simp, ?_⟩
    · simp only [productdto.ProductsFromDomain, Option.getD_some, hf, List.filterMap_eq_map]
    · intro i hi
      refine ⟨g (ps.get ⟨i, hi⟩), ?_, (hg _).2.1, (hg _).2.2⟩
      simp [List.getElem?_map, List.getElem?_eq_getElem hi]

/-- Witness of C24: a list of two categories and a list of two products. -/
theorem fromDomain_preserves_length_and_order_witness :
    store1.categories ++ store1.categories ≠ [] ∧
    (∃ rs, categorydto.CategoriesFromDomain (some (store1.categories ++ store1.categories)) =
        some rs ∧ rs.length = (store1.categories ++ store1.categories).length ∧
      ∀ i (hi : i < (store1.categories ++ store1.categories).length), ∃ r,
        rs[i]? = some (some r) ∧
        r.ID = ((store1.categories ++ store1.categories).get ⟨i, hi⟩).ID ∧
        r.Name = ((store1.categories ++ store1.categories).get ⟨i, hi⟩).Name) :=
  ⟨by decide,
   (fromDomain_preserves_length_and_order (store1.categories ++ store1.categories)
     [phone, orphan] (by decide)).1⟩

/-- C25: the list requests carry a non-empty name, the limit and the offset
into the filter unchanged; an empty category name gives an absent name
predicate. -/
theorem filter_requests_carry_name_limit_offset (n : String) (l o : Int)
    (categoryID : Option String) (maxPrice minPrice : Option ℚ) (hn : n ≠ "") :
    ((categorydto.FilterCategoriesRequest.ToDomain ⟨n, l, o⟩).Name = some n ∧
      (categorydto.FilterCategoriesRequest.ToDomain ⟨n, l, o⟩).Limit = l ∧
      (categorydto.FilterCategoriesRequest.ToDomain ⟨n, l, o⟩).Offset = o) ∧
    ((productdto.FilterProductRequest.ToDomain
        ⟨some n, categoryID, maxPrice, minPrice, l, o⟩).Name = some n ∧
      (productdto.FilterProductRequest.ToDomain
        ⟨some n, categoryID, maxPrice, minPrice, l, o⟩).Limit = l ∧
      (productdto.FilterProductRequest.ToDomain
        ⟨some n, categoryID, maxPrice, minPrice, l, o⟩).Offset = o) ∧
    (categorydto.FilterCategoriesRequest.ToDomain ⟨"", l, o⟩).Name = none := by
  refine ⟨⟨?_, rfl, rfl⟩, ⟨rfl, rfl, rfl⟩, ?_⟩
  · have hz : n ≠ (ZeroValue.zero : String) := hn
    simp [categorydto.FilterCategoriesRequest.ToDomain, SetPtr, hz]
  · simp [categorydto.FilterCategoriesRequest.ToDomain, SetPtr, ZeroValue.zero]

/-- Witness of C25: name "phone", limit 500 and offset -3 are carried as given. -/
theorem filter_requests_carry_name_limit_offset_witness :
    "phone" ≠ "" ∧
    (categorydto.FilterCategoriesRequest.ToDomain ⟨"phone", 500, -3⟩).Name = some "phone" ∧
    (categorydto.FilterCategoriesRequest.ToDomain ⟨"phone", 500, -3⟩).Limit = 500 ∧
    (categorydto.FilterCategoriesRequest.ToDomain ⟨"phone", 500, -3⟩).Offset = -3 :=
  ⟨by decide,
   (filter_requests_carry_name_limit_offset "phone" 500 (-3) none none none (by decide)).1⟩

/-- C30: `GetValue (SetPtr v) = v`; `SetPtr v` is absent exactly for the zero
value; `SetPtr (GetValue p) = p` exactly when `p` is absent or holds a
non-zero value; and the price, stock and image URL of a create request are the
ones of the model built from its domain product. -/
theorem pointer_helpers_roundtrip {T : Type} [ZeroValue T] [DecidableEq T] (v : T)
    (p : Option T) (r : productdto.ProductCreateRequest) :
    GetValue (SetPtr v) = v ∧
    (SetPtr v = none ↔ v = ZeroValue.zero) ∧
    (SetPtr (GetValue p) = p ↔ (p = none ∨ ∃ w, p = some w ∧ w ≠ ZeroValue.zero)) ∧
    (∃ m, ToProductModel (some r.ToDomain) = some m ∧ m.Price = r.Price ∧
      m.Stock = r.Stock ∧ m.ImageURL = r.ImageURL) := by
  refine ⟨GetValue_SetPtr v, ?_, ?_, ⟨_, rfl, ?_, ?_, ?_⟩⟩
  · unfold SetPtr
    split_ifs with h
    · simp [h]
    · simp [h]
  · rw [SetPtr_GetValue]
    cases p with
    | none => simp
    | some w =>
      by_cases hw : w = ZeroValue.zero
      · simp [hw]
      · simp [hw]
  · exact GetValue_SetPtr r.Price
  · exact GetValue_SetPtr r.Stock
  · exact GetValue_SetPtr r.ImageURL

/-! ## Frame of `GetAll` and the category check of `Create` -/

/-- C26: the filter that category and product `GetAll` hand to `FindAll` has
the caller's name, category id, price bounds and offset; only the limit may
differ, and the offset is passed on as it is, also when negative. -/
theorem getAll_changes_only_the_limit {σ : Type}
    (cr : CategoryRepository σ) (pr : ProductRepository σ) (ctx : Context)
    (cf : CategoriesFilter) (pf : ProductFilter) (s : σ) :
    (∃ g, ((recordedCategoryService cr).GetAll ctx cf (s, [])).2.2
        = [Call.CategoryFindAll ctx g] ∧ g.Name = cf.Name ∧ g.Offset = cf.Offset) ∧
    (∀ c g, Call.ProductFindAll c g ∈
        ((recordedProductService pr cr).GetAll ctx pf (s, [])).2.2 →
        g.Name = pf.Name ∧ g.CategoryID = pf.CategoryID ∧ g.MinPrice = pf.MinPrice ∧
        g.MaxPrice = pf.MaxPrice ∧ g.Offset = pf.Offset) ∧
    ((pf.MinPrice = none ∨ pf.MaxPrice = none) →
      ∃ g, ((recordedProductService pr cr).GetAll ctx pf (s, [])).2.2
        = [Call.ProductFindAll ctx g] ∧ g.Offset = pf.Offset) := by
  have key : ∀ f : ProductFilter,
      f = (if (if pf.Limit ≤ 0 then { pf with Limit := 10 } else pf).Limit > 100
            then { (if pf.Limit ≤ 0 then { pf with Limit := 10 } else pf) with Limit := 100 }
            else (if pf.Limit ≤ 0 then { pf with Limit := 10 } else pf)) →
      f.Name = pf.Name ∧ f.CategoryID = pf.CategoryID ∧ f.MinPrice = pf.MinPrice ∧
      f.MaxPrice = pf.MaxPrice ∧ f.Offset = pf.Offset := by
    intro f hf
    subst hf
    split_ifs <;> simp
  refine ⟨?_, ?_, ?_⟩
  · refine ⟨_, rfl, ?_⟩
    split_ifs <;> simp
  · intro c g hmem
    simp only [recordedProductService, NewProductService, productService.GetAll,
      ProductRepository.recorded, logged] at hmem
    split at hmem
    · split at hmem
      · simp at hmem
      · simp at hmem
        exact key g hmem.2
    · simp at hmem
      exact key g hmem.2
  · intro hnone
    simp only [recordedProductService, NewProductService, productService.GetAll,
      ProductRepository.recorded, logged]
    split
    · rename_i minPrice maxPrice hmin hmax
      have hmin2 := (key _ rfl).2.2.1
      have hmax2 := (key _ rfl).2.2.2.1
      rw [hmin] at hmin2
      rw [hmax] at hmax2
      rcases hnone with h | h
      · rw [h] at hmin2
        cases hmin2
      · rw [h] at hmax2
        cases hmax2
    · exact ⟨_, rfl, (key _ rfl).2.2.2.2⟩

/-- Witness of C26: offset -3 reaches both repositories as it is. -/
theorem getAll_changes_only_the_limit_witness :
    ((recordedCategoryService memCategoryRepository).GetAll background
        { Limit := 0, Offset := -3, Name := some "el" } (store1, [])).2.2
      = [Call.CategoryFindAll background { Limit := 10, Offset := -3, Name := some "el" }] ∧
    (∃ g, ((recordedProductService memProductRepository memCategoryRepository).GetAll
        background { productFilterWith 500 none none with Offset := -3 } (store1, [])).2.2
      = [Call.ProductFindAll background g] ∧
        g.Offset = ({ productFilterWith 500 none none with Offset := -3 } : ProductFilter).Offset) :=
  ⟨by decide,
   (getAll_changes_only_the_limit memCategoryRepository memProductRepository background
     (categoryFilterWithLimit 0) { productFilterWith 500 none none with Offset := -3 }
     store1).2.2 (Or.inl rfl)⟩

/-- C27: product `Create` always starts with the category lookup for the
product's `categoryId`, also when that is the empty string; when the lookup
fails `Create` fails with that error and the product repository is not
invoked; `Update` with an empty `categoryId` makes no category lookup. -/
theorem create_always_checks_category {σ : Type}
    (cr : CategoryRepository σ) (pr : ProductRepository σ) (ctx : Context)
    (id : String) (product : Product) (s : σ) :
    (∃ rest, ((recordedProductService pr cr).Create ctx product (s, [])).2.2
        = Call.CategoryFindByID ctx product.CategoryID :: rest) ∧
    (product.CategoryID = "" →
      ∃ rest, ((recordedProductService pr cr).Create ctx product (s, [])).2.2
        = Call.CategoryFindByID ctx "" :: rest) ∧
    (∀ e, (cr.FindByID ctx product.CategoryID s).1.2 = some e →
      ((recordedProductService pr cr).Create ctx product (s, [])).1 = ("", some e) ∧
      ((recordedProductService pr cr).Create ctx product (s, [])).2.2
        = [Call.CategoryFindByID ctx product.CategoryID]) ∧
    (product.CategoryID = "" →
      ((recordedProductService pr cr).Update ctx id product (s, [])).2.2
        = [Call.ProductUpdate ctx (some { product with ID := id })]) := by
  have hfirst : ∃ rest, ((recordedProductService pr cr).Create ctx product (s, [])).2.2
      = Call.CategoryFindByID ctx product.CategoryID :: rest := by
    cases h : (cr.FindByID ctx product.CategoryID s).1.2 with
    | none =>
      rw [recorded_Create_of_lookup_ok cr pr ctx product s h]
      exact ⟨_, rfl⟩
    | some e =>
      rw [recorded_Create_of_lookup_error cr pr ctx product s e h]
      exact ⟨_, rfl⟩
  refine ⟨hfirst, ?_, ?_, ?_⟩
  · intro he
    rw [he] at hfirst
    exact hfirst
  · intro e h
    rw [recorded_Create_of_lookup_error cr pr ctx product s e h]
    exact ⟨rfl, rfl⟩
  · intro he
    rw [recorded_Update_of_empty cr pr ctx id product s he]

/-- Witness of C27: a product without a category reference on the in-memory
repositories; the lookup is made with the empty id and fails. -/
theorem create_always_checks_category_witness :
    ((recordedProductService memProductRepository memCategoryRepository).Create
        background renamed (store1, [])).2.2 = [Call.CategoryFindByID background ""] ∧
    ((recordedProductService memProductRepository memCategoryRepository).Create
        background renamed (store1, [])).1
      = ("", some (ErrNotFound.WithMessage "category not found")) :=
  ⟨((create_always_checks_category memCategoryRepository memProductRepository background
      "p1" renamed store1).2.2.1 (ErrNotFound.WithMessage "category not found")
      (by decide)).2,
   ((create_always_checks_category memCategoryRepository memProductRepository background
      "p1" renamed store1).2.2.1 (ErrNotFound.WithMessage "category not found")
      (by decide)).1⟩

/-! ## Empty update payloads and the nil-argument branches -/

/-- The column map of a product without any updatable value is empty. -/
theorem ToUpdateProductModel_of_empty (p : Product)
    (hName : p.Name = "") (hDesc : p.Description = "") (hSKU : p.SKU = "")
    (hCat : p.CategoryID = "") (hPrice : p.Price = none) (hStock : p.Stock = none)
    (hImage : p.ImageURL = none) :
    ToUpdateProductModel (some p) = some ColumnMap.make := by
  simp [ToUpdateProductModel, hName, hDesc, hSKU, hCat, hPrice, hStock, hImage]

/-- The product repository's `Update` on a product without any updatable
value: the `InvalidArgument` error, and the store is not touched. -/
theorem NewProductRepository_Update_of_empty {σ : Type} (db : gorm.DB σ) (ctx : Context)
    (p : Product) (s : σ)
    (hName : p.Name = "") (hDesc : p.Description = "") (hSKU : p.SKU = "")
    (hCat : p.CategoryID = "") (hPrice : p.Price = none) (hStock : p.Stock = none)
    (hImage : p.ImageURL = none) :
    (NewProductRepository db).Update ctx (some p) s =
      (some (ErrInvalidArgument.WithMessage "product update cannot be nil"), s) := by
  simp only [NewProductRepository, productRepository.Update]
  rw [ToUpdateProductModel_of_empty p hName hDesc hSKU hCat hPrice hStock hImage]
  rfl

/-- C28: for a product whose name, description, sku and categoryId are empty
and whose price, stock and imageUrl are absent, and for every id, the product
repository's `Update` returns the `InvalidArgument` error "product update
cannot be nil" and no statement reaches the database; product service `Update`
hands the payload with the id stamped to the repository and returns that
error. -/
theorem update_with_empty_payload_rejected {σ : Type} (db : gorm.DB σ) (ctx : Context)
    (id : String) (p : Product) (s : σ)
    (hName : p.Name = "") (hDesc : p.Description = "") (hSKU : p.SKU = "")
    (hCat : p.CategoryID = "") (hPrice : p.Price = none) (hStock : p.Stock = none)
    (hImage : p.ImageURL = none) :
    (NewProductRepository db.recorded).Update ctx (some { p with ID := id }) (s, []) =
      (some (ErrInvalidArgument.WithMessage "product update cannot be nil"), (s, [])) ∧
    (recordedProductService (NewProductRepository db.recorded)
        (NewCategoryRepository db.recorded)).Update ctx id p ((s, []), []) =
      (some (ErrInvalidArgument.WithMessage "product update cannot be nil"),
        ((s, []), [Call.ProductUpdate ctx (some { p with ID := id })])) ∧
    Error.Code? (ErrInvalidArgument.WithMessage "product update cannot be nil")
      = some ErrInvalidArgument.Code := by
  have hrepo := NewProductRepository_Update_of_empty db.recorded ctx { p with ID := id }
    (s, []) hName hDesc hSKU hCat hPrice hStock hImage
  refine ⟨hrepo, ?_, rfl⟩
  rw [recorded_Update_of_empty _ _ ctx id p (s, []) hCat, hrepo]

/-- Witness of C28: the payload that carries nothing, sent for product `p1` of
the in-memory database. -/
theorem update_with_empty_payload_rejected_witness :
    (NewProductRepository (gorm.Open memBackend).recorded).Update background
        (some { (ProductUpdateRequest.ToDomain ⟨none, none, none, none, none, none, none⟩) with
          ID := "p1" }) (memDB1, []) =
      (some (ErrInvalidArgument.WithMessage "product update cannot be nil"), (memDB1, [])) :=
  (update_with_empty_payload_rejected (gorm.Open memBackend) background "p1"
    (ProductUpdateRequest.ToDomain ⟨none, none, none, none, none, none, none⟩) memDB1
    rfl rfl rfl rfl rfl rfl rfl).1

/-- An error of the category repository's `FindByID` wraps a database error. -/
theorem NewCategoryRepository_FindByID_error {σ : Type} (db : gorm.DB σ) (ctx : Context)
    (id : String) (s : σ) (e : Error)
    (h : ((NewCategoryRepository db).FindByID ctx id s).1.2 = some e) :
    ∃ code msg err, e = Error.Wrap code msg err := by
  simp only [NewCategoryRepository, categoryRepository.FindByID] at h
  split at h
  · split at h
    · simp only [Option.some.injEq] at h
      exact ⟨_, _, _, h.symm⟩
    · simp only [Option.some.injEq] at h
      exact ⟨_, _, _, h.symm⟩
  · simp at h

/-- An error of the category repository's `Create` on a category wraps a
database error. -/
theorem NewCategoryRepository_Create_error {σ : Type} (db : gorm.DB σ) (ctx : Context)
    (c : Category) (s : σ) (e : Error)
    (h : ((NewCategoryRepository db).Create ctx (some c) s).1.2 = some e) :
    ∃ code msg err, e = Error.Wrap code msg err := by
  simp only [NewCategoryRepository, categoryRepository.Create, ToCategoryModel] at h
  split at h
  · simp only [Option.some.injEq] at h
    exact ⟨_, _, _, h.symm⟩
  · simp at h

/-- An error of the category repository's `Update` on a category wraps a
database error. -/
theorem NewCategoryRepository_Update_error {σ : Type} (db : gorm.DB σ) (ctx : Context)
    (c : Category) (s : σ) (e : Error)
    (h : ((NewCategoryRepository db).Update ctx (some c) s).1 = some e) :
    ∃ code msg err, e = Error.Wrap code msg err := by
  simp only [NewCategoryRepository, categoryRepository.Update] at h
  split at h
  · simp only [Option.some.injEq] at h
    exact ⟨_, _, _, h.symm⟩
  · simp at h

/-- An error of the product repository's `Create` on a product wraps a
database error. -/
theorem NewProductRepository_Create_error {σ : Type} (db : gorm.DB σ) (ctx : Context)
    (p : Product) (s : σ) (e : Error)
    (h : ((NewProductRepository db).Create ctx (some p) s).1.2 = some e) :
    ∃ code msg err, e = Error.Wrap code msg err := by
  simp only [NewProductRepository, productRepository.Create] at h
  split at h
  · simp only [Option.some.injEq] at h
    exact ⟨_, _, _, h.symm⟩
  · simp at h

/-- An error of the product repository's `Update` on a product is the
empty-update error or wraps a database error. -/
theorem NewProductRepository_Update_error {σ : Type} (db : gorm.DB σ) (ctx : Context)
    (p : Product) (s : σ) (e : Error)
    (h : ((NewProductRepository db).Update ctx (some p) s).1 = some e) :
    e = ErrInvalidArgument.WithMessage "product update cannot be nil" ∨
      ∃ code msg err, e = Error.Wrap code msg err := by
  simp only [NewProductRepository, productRepository.Update] at h
  split at h
  · simp only [Option.some.injEq] at h
    exact Or.inl h.symm
  · split at h
    · simp only [Option.some.injEq] at h
      exact Or.inr ⟨_, _, _, h.symm⟩
    · simp at h

/-- The error of category `Create` is the error of the repository's `Create`
on the given category. -/
theorem categoryService_Create_error {σ : Type} (R : CategoryRepository σ) (ctx : Context)
    (category : Category) (s : σ) :
    ((NewCategoryService R).Create ctx category s).1.2
      = (R.Create ctx (some category) s).1.2 := by
  simp only [NewCategoryService, categoryService.Create]
  rcases R.Create ctx (some category) s with ⟨⟨i, _ | e⟩, s1⟩ <;> rfl

/-- An error of product `Create` is the error of the category lookup or of the
product repository's `Create` on the given product. -/
theorem productService_Create_error {σ : Type} (P : ProductRepository σ)
    (R : CategoryRepository σ) (ctx : Context) (product : Product) (s : σ) (e : Error)
    (h : ((NewProductService P R).Create ctx product s).1.2 = some e) :
    (R.FindByID ctx product.CategoryID s).1.2 = some e ∨
      ∃ s1, (P.Create ctx (some product) s1).1.2 = some e := by
  simp only [NewProductService, productService.Create, productService.validateCategory] at h
  rcases hf : R.FindByID ctx product.CategoryID s with ⟨⟨c, _ | err⟩, s1⟩
  · rw [hf] at h
    simp only [] at h
    right
    refine ⟨s1, ?_⟩
    rcases hc : P.Create ctx (some product) s1 with ⟨⟨i, _ | err2⟩, s2⟩
    · rw [hc] at h
      simp at h
    · rw [hc] at h
      exact h
  · rw [hf] at h
    left
    exact h

/-- An error of product `Update` is the error of the category lookup or of the
product repository's `Update` on the payload with the id stamped. -/
theorem productService_Update_error {σ : Type} (P : ProductRepository σ)
    (R : CategoryRepository σ) (ctx : Context) (id : String) (product : Product) (s : σ)
    (e : Error)
    (h : ((NewProductService P R).Update ctx id product s).1 = some e) :
    (R.FindByID ctx product.CategoryID s).1.2 = some e ∨
      ∃ s1, (P.Update ctx (some { product with ID := id }) s1).1 = some e := by
  simp only [NewProductService, productService.Update, productService.validateCategory] at h
  by_cases hne : product.CategoryID = ""
  · have h2 : ¬ (product.CategoryID ≠ "") := fun hc => hc hne
    rw [if_neg h2] at h
    exact Or.inr ⟨s, h⟩
  · rw [if_pos hne] at h
    rcases hf : R.FindByID ctx product.CategoryID s with ⟨⟨c, _ | err⟩, s1⟩
    · rw [hf] at h
      exact Or.inr ⟨s1, h⟩
    · rw [hf] at h
      exact Or.inl h

/-- C29: every `Create` and `Update` call that the category service and the
product service make to a repository passes a present entity, and on the
repositories of this program no service `Create` or `Update` returns the
error "category cannot be nil" or "product cannot be nil". -/
theorem services_never_pass_nil_entity {σ : Type}
    (cr : CategoryRepository σ) (pr : ProductRepository σ) (db : gorm.DB σ) (ctx : Context)
    (id : String) (category : Category) (product : Product) (s : σ) :
    (((recordedCategoryService cr).Create ctx category (s, [])).2.2
        = [Call.CategoryCreate ctx (some category)] ∧
     ((recordedCategoryService cr).Update ctx id category (s, [])).2.2
        = [Call.CategoryUpdate ctx (some { category with ID := id })] ∧
     (∀ c x, Call.ProductCreate c x ∈
        ((recordedProductService pr cr).Create ctx product (s, [])).2.2 → x = some product) ∧
     (∀ c x, Call.ProductUpdate c x ∈
        ((recordedProductService pr cr).Update ctx id product (s, [])).2.2 →
        x = some { product with ID := id })) ∧
    (∀ e ∈ [ErrInvalidArgument.WithMessage "category cannot be nil",
        ErrInvalidArgument.WithMessage "product cannot be nil"],
      ((NewCategoryService (NewCategoryRepository db)).Create ctx category s).1.2 ≠ some e ∧
      ((NewCategoryService (NewCategoryRepository db)).Update ctx id category s).1 ≠ some e ∧
      ((NewProductService (NewProductRepository db) (NewCategoryRepository db)).Create
        ctx product s).1.2 ≠ some e ∧
      ((NewProductService (NewProductRepository db) (NewCategoryRepository db)).Update
        ctx id product s).1 ≠ some e) := by
  refine ⟨⟨?_, rfl, ?_, ?_⟩, ?_⟩
  · simp only [recordedCategoryService, NewCategoryService, categoryService.Create,
      CategoryRepository.recorded, logged]
    rcases cr.Create ctx (some category) s with ⟨⟨i, _ | e⟩, s1⟩ <;> rfl
  · intro c x hmem
    cases h : (cr.FindByID ctx product.CategoryID s).1.2 with
    | none =>
      rw [recorded_Create_of_lookup_ok cr pr ctx product s h] at hmem
      simp at hmem
      exact hmem.2
    | some e =>
      rw [recorded_Create_of_lookup_error cr pr ctx product s e h] at hmem
      simp at hmem
  · intro c x hmem
    by_cases hne : product.CategoryID = ""
    · rw [recorded_Update_of_empty cr pr ctx id product s hne] at hmem
      simp at hmem
      exact hmem.2
    · cases h : (cr.FindByID ctx product.CategoryID s).1.2 with
      | none =>
        rw [recorded_Update_of_lookup_ok cr pr ctx id product s hne h] at hmem
        simp at hmem
        exact hmem.2
      | some e =>
        rw [recorded_Update_of_lookup_error cr pr ctx id product s e hne h] at hmem
        simp at hmem
  · intro e he
    have hwrap : ∀ code msg err, e ≠ Error.Wrap code msg err := by
      intro code msg err
      simp only [List.mem_cons, List.mem_singleton, List.not_mem_nil, or_false] at he
      rcases he with rfl | rfl <;> simp [AppError.WithMessage]
    have hupd : e ≠ ErrInvalidArgument.WithMessage "product update cannot be nil" := by
      simp only [List.mem_cons, List.mem_singleton, List.not_mem_nil, or_false] at he
      rcases he with rfl | rfl <;> decide
    refine ⟨?_, ?_, ?_, ?_⟩
    · intro h
      rw [categoryService_Create_error] at h
      obtain ⟨code, msg, err, hw⟩ := NewCategoryRepository_Create_error db ctx category s e h
      exact hwrap code msg err hw
    · intro h
      obtain ⟨code, msg, err, hw⟩ :=
        NewCategoryRepository_Update_error db ctx { category with ID := id } s e h
      exact hwrap code msg err hw
    · intro h
      rcases productService_Create_error _ _ ctx product s e h with h1 | ⟨s1, h1⟩
      · obtain ⟨code, msg, err, hw⟩ := NewCategoryRepository_FindByID_error db ctx _ s e h1
        exact hwrap code msg err hw
      · obtain ⟨code, msg, err, hw⟩ := NewProductRepository_Create_error db ctx product s1 e h1
        exact hwrap code msg err hw
    · intro h
      rcases productService_Update_error _ _ ctx id product s e h with h1 | ⟨s1, h1⟩
      · obtain ⟨code, msg, err, hw⟩ := NewCategoryRepository_FindByID_error db ctx _ s e h1
        exact hwrap code msg err hw
      · rcases NewProductRepository_Update_error db ctx _ s1 e h1 with h2 | ⟨code, msg, err, hw⟩
        · exact hupd h2
        · exact hwrap code msg err hw

/-- Witness of C29: on the in-memory database, product `Create` for a product
in a missing category fails, and not with the error "product cannot be nil". -/
theorem services_never_pass_nil_entity_witness :
    ErrInvalidArgument.WithMessage "product cannot be nil" ∈
      [ErrInvalidArgument.WithMessage "category cannot be nil",
        ErrInvalidArgument.WithMessage "product cannot be nil"] ∧
    ((NewProductService (NewProductRepository (gorm.Open memBackend))
        (NewCategoryRepository (gorm.Open memBackend))).Create background orphan memDB1).1.2
      ≠ some (ErrInvalidArgument.WithMessage "product cannot be nil") :=
  ⟨by decide,
   ((services_never_pass_nil_entity (NewCategoryRepository (gorm.Open memBackend))
      (NewProductRepository (gorm.Open memBackend))
      (gorm.Open memBackend) background "p1" ⟨"c1", "Electronics", 0, 0⟩ orphan memDB1).2
      (ErrInvalidArgument.WithMessage "product cannot be nil") (by decide)).2.2.1⟩

/-! ## Sign of price and stock -/

/-- A create request that satisfies its `binding` tags gives a product whose
price and stock, when present, are not negative. -/
theorem create_request_binding_nonnegative (r : productdto.ProductCreateRequest)
    (h : r.binding) :
    (∀ v, r.ToDomain.Price = some v → 0 ≤ v) ∧ (∀ v, r.ToDomain.Stock = some v → 0 ≤ v) := by
  obtain ⟨_, _, _, hp, hs, _⟩ := h
  constructor
  · intro v hv
    simp only [productdto.ProductCreateRequest.ToDomain, SetPtr] at hv
    split_ifs at hv
    cases hv
    exact hp
  · intro v hv
    simp only [productdto.ProductCreateRequest.ToDomain, SetPtr] at hv
    split_ifs at hv
    cases hv
    exact hs

/-- C23, as the code has it: an update request with price -5 and stock -3 is
converted and passed by product service `Update` to the product repository
with these values; the column map built from it carries them, the update
succeeds, and the stored row then has price -5 and stock -3. -/
theorem update_stores_negative_price_and_stock :
    ((recordedProductService (NewProductRepository (gorm.Open memBackend))
        (NewCategoryRepository (gorm.Open memBackend))).Update background "p1"
        negativeUpdate.ToDomain (memDB1, [])).2.2
      = [Call.ProductUpdate background (some { negativeUpdate.ToDomain with ID := "p1" })] ∧
    (negativeUpdate.ToDomain.Price = some (-5) ∧ negativeUpdate.ToDomain.Stock = some (-3)) ∧
    ToUpdateProductModel (some { negativeUpdate.ToDomain with ID := "p1" })
      = some ⟨[("price", Value.FloatPtr (some (-5))), ("stock", Value.IntPtr (some (-3)))]⟩ ∧
    ((recordedProductService (NewProductRepository (gorm.Open memBackend))
        (NewCategoryRepository (gorm.Open memBackend))).Update background "p1"
        negativeUpdate.ToDomain (memDB1, [])).1 = none ∧
    ((recordedProductService (NewProductRepository (gorm.Open memBackend))
        (NewCategoryRepository (gorm.Open memBackend))).Update background "p1"
        negativeUpdate.ToDomain (memDB1, [])).2.1.products.map
          (fun m => (m.ID, m.Price, m.Stock))
      = [("p1", -5, -3)] := by
  refine ⟨?_, ⟨rfl, rfl⟩, ?_, ?_, ?_⟩
  · rfl
  · rfl
  · rfl
  · rfl

end CrudArise
